import Mathlib

/-!
Verification development for the Pharmaguard pharmacogenomics backend
(`py-backend/`): a shallow embedding of the VCF parser (`parser.py`), the
CPIC knowledge base and phenotype-inference engine (`pgx_knowledgebase.py`,
`cpic_tables.py`), the analysis drug loop (`analyzer.py`) and the
inheritance calculator (`compatibility.py`), together with proofs about
them.

Numbers are modelled with `Int`/`Nat`/`ℚ` (Python ints are unbounded;
the float values appearing here — activity scores and quarters — are
small dyadic rationals, represented exactly by both doubles and `ℚ`).
Excel-table contents (`data/tables/*.xlsx`) are runtime data, not code:
the post-load registries of `cpic_tables.py` are modelled as an explicit
state (`CpicState`) and the diplotype-table loader as a function of the
already-extracted cell rows.
-/

namespace Pharmaguard

/-! ### Models of the Python builtins used by the code under study -/

/-- Characters accepted by Python `str.strip()` / `int()` surrounding
whitespace (ASCII fragment). -/
def pyIsSpace (c : Char) : Bool :=
  c = ' ' || c = '\t' || c = '\n' || c = '\r' || c = '\x0b' || c = '\x0c'

/-- Python `str.strip()` (no argument): remove leading and trailing
whitespace.  ASCII model. -/
def pyStrip (s : String) : String :=
  ⟨(s.data.dropWhile pyIsSpace).reverse.dropWhile pyIsSpace |>.reverse⟩

/-- Python `str.rstrip("\n\r")`: remove trailing newline characters. -/
def pyRstripNL (s : String) : String :=
  ⟨(s.data.reverse.dropWhile fun c => c = '\n' || c = '\r').reverse⟩

/-- Validate a Python integer-literal digit string (digits with single
underscores strictly between digits) and return the digits. -/
def pyDigits : List Char → Option (List Char)
  | [] => none
  | [c] => if c.isDigit then some [c] else none
  | c :: '_' :: rest =>
    if c.isDigit then (pyDigits rest).map (c :: ·) else none
  | c :: c2 :: rest =>
    if c.isDigit then (pyDigits (c2 :: rest)).map (c :: ·) else none

/-- Numeric value of a digit list. -/
def digitsVal (ds : List Char) : Nat :=
  ds.foldl (fun acc c => acc * 10 + (c.toNat - '0'.toNat)) 0

/-- Model of Python `int(str)`: strip whitespace, optional sign, decimal
digits (underscores permitted between digits).  ASCII model; `none`
models the `ValueError` raised on anything else. -/
def pythonInt (s : String) : Option Int :=
  let cs := (pyStrip s).data
  match cs with
  | '+' :: rest => (pyDigits rest).map fun ds => (digitsVal ds : Int)
  | '-' :: rest => (pyDigits rest).map fun ds => -(digitsVal ds : Int)
  | _ => (pyDigits cs).map fun ds => (digitsVal ds : Int)

/-- Parse an unsigned plain decimal: `digits`, `digits.`, `digits.digits`
or `.digits`, with an optional `e`/`E` exponent. -/
def pyFloatCore (cs : List Char) : Option ℚ :=
  let intPart := cs.takeWhile Char.isDigit
  let rest := cs.dropWhile Char.isDigit
  let withFrac : Option (ℚ × List Char) :=
    match rest with
    | '.' :: rest2 =>
      let fracPart := rest2.takeWhile Char.isDigit
      let rest3 := rest2.dropWhile Char.isDigit
      if intPart = [] && fracPart = [] then none
      else some ((digitsVal intPart : ℚ)
        + (digitsVal fracPart : ℚ) / ((10 : ℚ) ^ fracPart.length), rest3)
    | _ =>
      if intPart = [] then none else some ((digitsVal intPart : ℚ), rest)
  match withFrac with
  | none => none
  | some (mant, rest3) =>
    match rest3 with
    | [] => some mant
    | e :: rest4 =>
      if e = 'e' || e = 'E' then
        let (sgn, rest5) : ℤ × List Char :=
          match rest4 with
          | '+' :: r => (1, r)
          | '-' :: r => (-1, r)
          | r => (1, r)
        if rest5 ≠ [] && rest5.all Char.isDigit then
          some (mant * (10 : ℚ) ^ (sgn * (digitsVal rest5 : Int)))
        else none
      else none

/-- Model of Python `float(str)` restricted to plain decimal literals:
strip whitespace, optional sign, decimal mantissa, optional exponent.
`none` models the `ValueError` on anything else (the `inf`/`nan` forms
never occur in the data handled here). -/
def pythonFloat (s : String) : Option ℚ :=
  match (pyStrip s).data with
  | '+' :: rest => pyFloatCore rest
  | '-' :: rest => (pyFloatCore rest).map (-·)
  | cs => pyFloatCore cs

/-- Python `dict` assignment `d[k] = v` on an insertion-ordered
association list: an existing key keeps its position and gets the new
value; a new key is appended. -/
def pyDictSet (d : List (String × α)) (k : String) (v : α) : List (String × α) :=
  if d.any (fun kv => kv.1 = k) then
    d.map fun kv => if kv.1 = k then (kv.1, v) else kv
  else d ++ [(k, v)]

/-- Python `d.get(k, default)` on the association-list dict model. -/
def pyDictGetD (d : List (String × α)) (k : String) (dflt : α) : α :=
  match d.find? (fun kv => kv.1 = k) with
  | some kv => kv.2
  | none => dflt

/-- Python `d.get(k)` (defaulting to `None`). -/
def pyDictGet (d : List (String × α)) (k : String) : Option α :=
  (d.find? (fun kv => kv.1 = k)).map (·.2)

/-- Python `str.split(sep)` for a one-character separator, on character
lists: split at every occurrence, keeping empty pieces. -/
def splitChar (c : Char) : List Char → List (List Char)
  | [] => [[]]
  | x :: xs =>
    if x = c then [] :: splitChar c xs
    else
      match splitChar c xs with
      | [] => [[x]]
      | g :: gs => (x :: g) :: gs

/-- Python `s.split(sep)` for a one-character separator (same behaviour
as `String.splitOn` for these separators).  Every separator split in the
code under study is a single character. -/
def pySplitChar (s : String) (c : Char) : List String :=
  (splitChar c s.data).map fun g => (⟨g⟩ : String)

/-- Collect an optional value per element, `none` as soon as one
element fails (Python: materialising a generator that can raise). -/
def optionMapAll (f : α → Option β) : List α → Option (List β)
  | [] => some []
  | a :: t =>
    match f a with
    | none => none
    | some b => (optionMapAll f t).map (b :: ·)

/-- `str.startswith(pre)`. -/
def strStartsWith (s pre : String) : Bool :=
  pre.data.isPrefixOf s.data

/-- `str.endswith(suf)`. -/
def strEndsWith (s suf : String) : Bool :=
  suf.data.isSuffixOf s.data

/-- `c in s` for a single character. -/
def strContains (s : String) (c : Char) : Bool :=
  s.data.contains c

/-- `str.upper()` (ASCII). -/
def strToUpper (s : String) : String :=
  ⟨s.data.map Char.toUpper⟩

/-- `str.lower()` (ASCII). -/
def strToLower (s : String) : String :=
  ⟨s.data.map Char.toLower⟩

/-- `str.replace(old, new)` for a one-character `old`. -/
def replaceChar (c : Char) (rep : String) (s : String) : String :=
  ⟨s.data.flatMap fun x => if x = c then rep.data else [x]⟩

/-- Python `a < b` on strings (lexicographic by code point). -/
def pyStrLtB (a b : String) : Bool :=
  decide (a.data < b.data)

/-- Python `a <= b` on strings, as the sort relation of `sorted`. -/
def pyStrLe (a b : String) : Prop :=
  ¬ b.data < a.data

instance : DecidableRel pyStrLe := fun a b =>
  inferInstanceAs (Decidable (¬ b.data < a.data))

/-! ### `parser.py` — VCF parser embedding

The parser is modelled on the list of raw text lines of the input (the
file/`gzip` plumbing of `_open_vcf` / `parse_vcf_bytes` is transparent
I/O: both feed the same per-line loop).  The only exception that can
escape the loop is the `ValueError` of `int(cols[1])` on a retained data
row, modelled by `Except`. -/

/-- A value of the semicolon-delimited INFO map: `KEY=VALUE` entries keep
the string, bare tokens are boolean flags (`info[token] = True`). -/
inductive InfoVal where
  | str (v : String)
  | flag
deriving DecidableEq, Repr

/-- `parser.VCFMetadata`. -/
structure VCFMetadata where
  file_format : String := ""
  filters : List (String × String) := []
  infos : List (String × List (String × String)) := []
  formats : List (String × List (String × String)) := []
  contigs : List (String × List (String × String)) := []
  raw : List String := []
deriving DecidableEq, Repr

/-- `parser.SampleGenotype`. -/
structure SampleGenotype where
  sample : String
  raw : String
  format_fields : List (String × String) := []
  alleles : List Int := []
  phased : Bool := false
  is_variant : Bool := false
deriving DecidableEq, Repr

/-- `parser.Variant`. -/
structure Variant where
  chrom : String
  pos : Int
  id : String
  ref : String
  alt : List String
  qual : Option ℚ
  filter : List String
  info : List (String × InfoVal)
  format_keys : List String
  genotypes : List SampleGenotype := []
deriving DecidableEq, Repr

/-- `parser.VCFFile`. -/
structure VCFFile where
  metadata : VCFMetadata
  samples : List String
  variants : List Variant
deriving DecidableEq, Repr

/-- Word character of the `\w` regex class (ASCII). -/
def isWordChar (c : Char) : Bool :=
  c.isAlpha || c.isDigit || c = '_'

/-- First character class `[A-Za-z_]` of the key token regex. -/
def isKeyStart (c : Char) : Bool :=
  c.isAlpha || c = '_'

/-- The `[^,]+` alternative of the `_KV_TOKEN_RE` value: a non-empty
greedy run of non-comma characters. -/
def kvBareValue (rest : List Char) : Option (String × List Char) :=
  if rest.takeWhile (fun x => x != ',') = [] then none
  else some (⟨rest.takeWhile (fun x => x != ',')⟩, rest.dropWhile (fun x => x != ','))

/-- The `"[^"]*"|[^,]+` value alternation of `_KV_TOKEN_RE`. -/
def kvValueAt (rest : List Char) : Option (String × List Char) :=
  match rest with
  | '"' :: rest2 =>
    if (rest2.dropWhile (fun x => x != '"')) ≠ [] then
      some (⟨'"' :: rest2.takeWhile (fun x => x != '"') ++ ['"']⟩,
        (rest2.dropWhile (fun x => x != '"')).drop 1)
    else kvBareValue rest
  | _ => kvBareValue rest

/-- One match attempt of `_KV_TOKEN_RE` (`([A-Za-z_]\w*)=("[^"]*"|[^,]+)`)
at the current position: on success returns the key, the raw value and
the remaining characters. -/
def kvMatchAt (cs : List Char) : Option (String × String × List Char) :=
  match cs with
  | [] => none
  | c :: _ =>
    if isKeyStart c then
      match cs.dropWhile isWordChar with
      | '=' :: rest =>
        (kvValueAt rest).map fun vr => (⟨cs.takeWhile isWordChar⟩, vr.1, vr.2)
      | _ => none
    else none

theorem kvBareValue_length {rest : List Char} {v rem}
    (h : kvBareValue rest = some (v, rem)) : rem.length ≤ rest.length := by
  unfold kvBareValue at h
  split at h
  · exact absurd h (by simp)
  · injection h with h'
    injection h' with hv hrem
    subst hrem
    exact List.Sublist.length_le (List.dropWhile_sublist _)

theorem kvValueAt_length {rest : List Char} {v rem}
    (h : kvValueAt rest = some (v, rem)) : rem.length ≤ rest.length := by
  unfold kvValueAt at h
  split at h
  case h_1 rest2 =>
    split at h
    case isTrue =>
      injection h with h'
      injection h' with hv hrem
      subst hrem
      have h4 : (rest2.dropWhile (fun x => x != '"')).length ≤ rest2.length :=
        List.Sublist.length_le (List.dropWhile_sublist _)
      simp only [List.length_drop, List.length_cons]
      omega
    case isFalse =>
      have := kvBareValue_length h
      omega
  case h_2 => exact kvBareValue_length h

theorem kvMatchAt_length {cs : List Char} {k v rem}
    (h : kvMatchAt cs = some (k, v, rem)) : rem.length < cs.length := by
  unfold kvMatchAt at h
  split at h
  case h_1 => exact absurd h (by simp)
  case h_2 c rest0 =>
    split at h
    case isFalse => exact absurd h (by simp)
    case isTrue =>
      split at h
      case h_2 => exact absurd h (by simp)
      case h_1 rest heq =>
        rcases Option.map_eq_some'.mp h with ⟨vr, hvr, hpair⟩
        have hrem : rem = vr.2 := by
          have := congrArg (fun t => t.2.2) hpair
          simpa using this.symm
        have h1 : vr.2.length ≤ rest.length := @kvValueAt_length rest vr.1 vr.2 (by
          rw [hvr])
        have h2 : rest.length + 1 ≤ (c :: rest0).length := by
          have hsub : List.Sublist (List.dropWhile isWordChar (c :: rest0))
              (c :: rest0) := by apply List.dropWhile_sublist
          have hs := List.Sublist.length_le hsub
          rw [heq] at hs
          simpa using hs
        subst hrem
        simp only [List.length_cons] at h2 ⊢
        omega

/-- `re.finditer` scan of `_KV_TOKEN_RE`: try a match at each position,
advancing one character on failure. -/
def kvScan (cs : List Char) : List (String × String) :=
  match h : kvMatchAt cs with
  | some (k, v, rest) =>
    have : rest.length < cs.length := kvMatchAt_length h
    (k, v) :: kvScan rest
  | none =>
    match cs with
    | [] => []
    | _ :: rest => kvScan rest
termination_by cs.length

/-- `parser._parse_structured_line`: decompose
`##KEY=<Field=Value,...>` using the `_STRUCTURED_RE` shape, then collect
`Field=Value` tokens (quoted values lose their quotes). -/
def parseStructuredLine (line : String) : Option (String × List (String × String)) :=
  let cs := line.data
  match cs with
  | '#' :: '#' :: rest =>
    let key := rest.takeWhile isWordChar
    let afterKey := rest.dropWhile isWordChar
    if key = [] then none
    else
      match afterKey with
      | '=' :: '<' :: bodyAndClose =>
        if bodyAndClose.getLast? = some '>' && bodyAndClose.length ≥ 2 then
          let body := bodyAndClose.dropLast
          let fields := (kvScan body).map fun kv =>
            let v := kv.2
            if v.length ≥ 2 && strStartsWith v "\x22" && strEndsWith v "\x22" then
              (kv.1, (⟨(v.data.drop 1).dropLast⟩ : String))
            else kv
          some (⟨key⟩, fields)
        else none
      | _ => none
  | _ => none

/-- `parser._parse_info`: the INFO column as a semicolon-delimited
`KEY=VALUE` / bare-flag dict. -/
def parseInfo (raw : String) : List (String × InfoVal) :=
  if raw = "." || raw = "" then []
  else
    (pySplitChar raw ';').foldl (fun acc token =>
      if strContains token '=' then
        match pySplitChar token '=' with
        | k :: rest => pyDictSet acc k (InfoVal.str (String.intercalate "=" rest))
        | [] => acc
      else pyDictSet acc token InfoVal.flag) []

/-- The positionally-keyed FORMAT dict of a sample cell: the cell split
on `:`, each value under its FORMAT key, missing values as `.`. -/
def fmtDictOf (fmt_keys : List String) (gt_str : String) : List (String × String) :=
  let values := pySplitChar gt_str ':'
  (fmt_keys.enum).foldl
    (fun acc ik => pyDictSet acc ik.2 (values.getD ik.1 ".")) []

/-- The raw genotype token: `fmt_dict.get("GT", ".")`. -/
def gtRawOf (fmt_keys : List String) (gt_str : String) : String :=
  pyDictGetD (fmtDictOf fmt_keys gt_str) "GT" "."

/-- The genotype-token separator: `|` when phased, else `/`. -/
def gtSepOf (gt_raw : String) : Char :=
  if strContains gt_raw '|' then '|' else '/'

/-- The allele indices of a genotype token, when every piece parses:
`int(a)` per piece, `.` ↦ `-1`; `none` models the caught `ValueError`. -/
def allelesOf (gt_raw : String) (sep : Char) : Option (List Int) :=
  optionMapAll (fun a => if a = "." then some (-1) else pythonInt a)
    (pySplitChar gt_raw sep)

/-- The `try`-block of `_parse_genotype`: `none` both for the bare
missing marker (the `gt_raw != "."` guard) and for the caught
`ValueError`, in which cases `alleles`/`is_variant` keep their
initialisers. -/
def parsedAllelesOf (fmt_keys : List String) (gt_str : String) : Option (List Int) :=
  let gt_raw := gtRawOf fmt_keys gt_str
  if gt_raw ≠ "." then allelesOf gt_raw (gtSepOf gt_raw) else none

/-- `parser._parse_genotype`.  (The `alt_alleles` argument is kept for
signature fidelity; the Python body never reads it.) -/
def parseGenotype (fmt_keys : List String) (gt_str : String)
    (sample_name : String) (alt_alleles : List String) : SampleGenotype :=
  let gt_raw := gtRawOf fmt_keys gt_str
  let _ := alt_alleles
  { sample := sample_name
    raw := gt_raw
    format_fields := fmtDictOf fmt_keys gt_str
    alleles := (parsedAllelesOf fmt_keys gt_str).getD []
    phased := strContains gt_raw '|'
    is_variant := match parsedAllelesOf fmt_keys gt_str with
      | some l => l.any (fun a => 0 < a)
      | none => false }

/-- The parse error that can abort `parse_vcf`: the uncaught
`ValueError` of `int(cols[1])` on a data row. -/
inductive VCFParseError where
  | posNotInt (s : String)
deriving DecidableEq, Repr

/-- Mutable state of the `parse_vcf` line loop. -/
structure ParseState where
  metadata : VCFMetadata := {}
  samples : List String := []
  variants : List Variant := []
deriving DecidableEq, Repr

/-- The `Variant` record built for a retained data row (a stripped,
non-empty, non-`##`, non-header line already split on tab into at least
8 columns), including the per-sample genotypes. -/
def buildVariant (samples : List String) (cols : List String) (pos : Int) : Variant :=
  let var_id := if cols.getD 2 "" = "." then "" else cols.getD 2 ""
  let alt := if cols.getD 4 "" = "." then [] else pySplitChar (cols.getD 4 "") ','
  let qual : Option ℚ :=
    if cols.getD 5 "" = "." then none else pythonFloat (cols.getD 5 "")
  let filt := if cols.getD 6 "" = "." then ["PASS"] else pySplitChar (cols.getD 6 "") ';'
  let info := parseInfo (cols.getD 7 "")
  let fmt_keys : List String :=
    if cols.length > 8 && cols.getD 8 "" ≠ "." then pySplitChar (cols.getD 8 "") ':' else []
  let genotypes : List SampleGenotype :=
    (samples.enum).filterMap fun idxName =>
      if 9 + idxName.1 < cols.length then
        some (parseGenotype fmt_keys (cols.getD (9 + idxName.1) "") idxName.2 alt)
      else none
  { chrom := cols.getD 0 "", pos := pos, id := var_id, ref := cols.getD 3 ""
    alt := alt, qual := qual, filter := filt, info := info
    format_keys := fmt_keys, genotypes := genotypes }

/-- The retained-data-row step continued: parse the position (the one
uncaught exception) and append the variant record. -/
def parseVariantRow (st : ParseState) (cols : List String) :
    Except VCFParseError ParseState :=
  match pythonInt (cols.getD 1 "") with
    | none => .error (.posNotInt (cols.getD 1 ""))
    | some pos =>
      .ok { st with variants := st.variants ++ [buildVariant st.samples cols pos] }

/-- One iteration of the `parse_vcf` loop on a `##` meta-information
line. -/
def parseMetaLine (st : ParseState) (line : String) : ParseState :=
  let md := { st.metadata with raw := st.metadata.raw ++ [line] }
  if strStartsWith line "##fileformat=" then
    -- `line.split("=", 1)[1]`: everything after the first `=`
    { st with metadata :=
        { md with file_format := String.intercalate "=" ((pySplitChar line '=').drop 1) } }
  else
    match parseStructuredLine line with
    | some (key, fields) =>
      if fields ≠ [] then
        let fid := pyDictGetD fields "ID" ""
        if key = "FILTER" then
          { st with metadata :=
              { md with filters := pyDictSet md.filters fid (pyDictGetD fields "Description" "") } }
        else if key = "INFO" then
          { st with metadata := { md with infos := pyDictSet md.infos fid fields } }
        else if key = "FORMAT" then
          { st with metadata := { md with formats := pyDictSet md.formats fid fields } }
        else if key = "contig" then
          { st with metadata := { md with contigs := pyDictSet md.contigs fid fields } }
        else { st with metadata := md }
      else { st with metadata := md }
    | none => { st with metadata := md }

/-- The `parse_vcf` line loop over the raw lines of the input, with the
optional `max_variants` early stop (`0` = unlimited). -/
def parseLines (lines : List String) (max_variants : Nat)
    (st : ParseState) : Except VCFParseError ParseState :=
  match lines with
  | [] => .ok st
  | raw_line :: rest =>
    let line := pyRstripNL raw_line
    if line = "" then parseLines rest max_variants st
    else if strStartsWith line "##" then
      parseLines rest max_variants (parseMetaLine st line)
    else if strStartsWith line "#CHROM" || strStartsWith line "#chrom" then
      let header_cols := pySplitChar (⟨line.data.dropWhile (· = '#')⟩ : String) '\t'
      let st' := if header_cols.length > 9
        then { st with samples := header_cols.drop 9 } else st
      parseLines rest max_variants st'
    else
      let cols := pySplitChar line '\t'
      if cols.length < 8 then parseLines rest max_variants st  -- skip malformed lines
      else
        match parseVariantRow st cols with
        | .error e => .error e
        | .ok st' =>
          if max_variants ≠ 0 && st'.variants.length ≥ max_variants then .ok st'
          else parseLines rest max_variants st'

/-- `parser.parse_vcf`, as a function of the input's raw lines. -/
def parse_vcf_lines (lines : List String) (max_variants : Nat := 0) :
    Except VCFParseError VCFFile :=
  (parseLines lines max_variants {}).map fun st =>
    { metadata := st.metadata, samples := st.samples, variants := st.variants }

/-! ### `cpic_tables.py` — loaded-table state and lookups

The Excel files under `data/tables/` are runtime data.  The state the
loader leaves behind is modelled by `CpicState`; the diplotype-phenotype
loader itself (`_load_diplotype_phenotype`), whose dict-building logic
claim C6 is about, is modelled as a function of the already-extracted
cell rows. -/

/-- `cpic_tables.DiplotypePhenotype` (one row of a Diplotype-Phenotype
table; `gene` is the `_gene` slot). -/
structure DiplotypePhenotype where
  diplotype : String
  activity_score : Option ℚ
  phenotype : String
  ehr_priority : String
  gene : String
deriving DecidableEq, Repr

/-- `DiplotypePhenotype.metabolizer_phenotype`: strip the gene prefix
(`'CYP2D6 Poor Metabolizer'` → `'Poor Metabolizer'`). -/
def metabolizer_phenotype (dp : DiplotypePhenotype) : String :=
  if dp.gene ≠ "" ∧ strStartsWith (strToUpper dp.phenotype) (strToUpper dp.gene ++ " ") then
    dp.phenotype.drop (dp.gene.length + 1)
  else dp.phenotype

/-- The registries `cpic_tables.py` populates at import time, as left by
`_discover_and_load()` on whatever table files are present.
`alleleActivity gene allele` is `GENE_ALLELE_FUNCTION[gene][allele]
.activity_value` (`none` when the allele is absent or its activity value
is null). -/
structure CpicState where
  loadedGenes : List String
  diplotypeTable : String → String → Option DiplotypePhenotype
  alleleActivity : String → String → Option ℚ

/-- `cpic_tables.has_gene`. -/
def has_gene (st : CpicState) (gene : String) : Bool :=
  st.loadedGenes.contains (strToUpper gene)

/-- `cpic_tables.get_activity_value` (defaults to 1.0 when the allele is
unknown or has no activity value). -/
def get_activity_value (st : CpicState) (gene allele : String) : ℚ :=
  (st.alleleActivity (strToUpper gene) allele).getD 1

/-- `cpic_tables.infer_phenotype_from_diplotype`. -/
def infer_phenotype_from_diplotype (st : CpicState) (gene diplotype : String) :
    Option String :=
  (st.diplotypeTable (strToUpper gene) diplotype).map metabolizer_phenotype

/-- One already-extracted data row of a Diplotype-Phenotype sheet, after
the per-cell conversions of `_load_diplotype_phenotype` (`row[0]`
stringified — skipped rows with a falsy cell are simply absent from the
row list; `row[1]`/`row[2]`/`row[3]` already converted). -/
structure DiploRow where
  diplotypeRaw : String
  activity_score : Option ℚ
  phenotype : String
  ehr_priority : String
deriving Repr

/-- One `for ri in range(1, len(rows))` iteration of
`_load_diplotype_phenotype`: store the diplotype under its own key
(overwriting), and under the reversed key only when that key is absent. -/
def diploLoadStep (gene : String) (d : String → Option DiplotypePhenotype)
    (row : DiploRow) : String → Option DiplotypePhenotype :=
  let diplotype := pyStrip row.diplotypeRaw
  let d1 : String → Option DiplotypePhenotype := fun k =>
    if k = diplotype then
      some ⟨diplotype, row.activity_score, row.phenotype, row.ehr_priority, gene⟩
    else d k
  let parts := pySplitChar diplotype '/'
  if parts.length = 2 then
    let reverse_key := parts.getD 1 "" ++ "/" ++ parts.getD 0 ""
    if d1 reverse_key = none then
      fun k =>
        if k = reverse_key then
          some ⟨reverse_key, row.activity_score, row.phenotype, row.ehr_priority, gene⟩
        else d1 k
    else d1
  else d1

/-- `_load_diplotype_phenotype` over the extracted data rows (rows whose
first cell was falsy are already dropped). -/
def loadDiplotypePhenotype (gene : String) (rows : List DiploRow) :
    String → Option DiplotypePhenotype :=
  rows.foldl (diploLoadStep gene) (fun _ => none)

/-! ### `pgx_knowledgebase.py` — phenotype inference

`ALLELE_FUNCTION` (the merged per-gene star-allele → functional-class
dict, built at import time from CPIC tables and hardcoded fallbacks) is
passed explicitly as `AF : String → String → Option String`
(`AF gene star` is `ALLELE_FUNCTION.get(gene, {}).get(star)`). -/

/-- Risk / phenotype label constants of `pgx_knowledgebase.py`. -/
def ULTRA_RAPID : String := "Ultra-rapid Metabolizer"

/-- `EXTENSIVE` — aka Normal Metabolizer. -/
def EXTENSIVE : String := "Normal Metabolizer"

/-- `INTERMEDIATE`. -/
def INTERMEDIATE : String := "Intermediate Metabolizer"

/-- `POOR`. -/
def POOR : String := "Poor Metabolizer"

/-- `pgx_knowledgebase._function_score`. -/
def _function_score (func : String) : ℚ :=
  if func = "normal" then 1
  else if func = "decreased" then 1/2
  else if func = "no_function" then 0
  else if func = "increased" then 3/2
  else 1

/-- One detected-variant dict as consumed by `build_diplotype` /
`infer_phenotype`: `a.get("star_allele", "")` and
`a.get("genotype", "0/0")`. -/
structure AlleleCall where
  star_allele : String := ""
  genotype : String := "0/0"
deriving DecidableEq, Repr

/-- `gt in ("1/1", "1|1")` — homozygous for the variant allele. -/
def isHomAlt (gt : String) : Bool :=
  gt = "1/1" || gt = "1|1"

/-- `gt in ("0/1", "0|1", "1|0", "1/0")` — heterozygous. -/
def isHetAlt (gt : String) : Bool :=
  gt = "0/1" || gt = "0|1" || gt = "1|0" || gt = "1/0"

/-- The local `_sort_key` of `build_diplotype`: strip leading `*`, text
before any `x` suffix, `A`/`B`/`C` → `.1`/`.2`/`.3`, parse as float,
unparseable sorts last (999). -/
def alleleSortKey (s : String) : ℚ :=
  let n1 : String := ⟨s.data.dropWhile (· = '*')⟩
  let n2 := (pySplitChar n1 'x').getD 0 ""
  let n3 := replaceChar 'C' ".3" (replaceChar 'B' ".2" (replaceChar 'A' ".1" n2))
  (pythonFloat n3).getD 999

/-- `pgx_knowledgebase.build_diplotype`: hom calls contribute two
copies, het calls one; fill to two copies with `*1`; keep the first two;
order the pair by the numeric sort key (Python's stable sort of a pair:
swap only when the second key is strictly smaller). -/
def build_diplotype (gene : String) (detected_alleles : List AlleleCall) : String :=
  let _ := gene
  let copies : List String := detected_alleles.flatMap fun a =>
    if a.star_allele = "" then []
    else if isHomAlt a.genotype then [a.star_allele, a.star_allele]
    else if isHetAlt a.genotype then [a.star_allele]
    else []
  let filled := copies ++ List.replicate (2 - copies.length) "*1"
  let c0 := filled.getD 0 "*1"
  let c1 := filled.getD 1 "*1"
  if alleleSortKey c1 < alleleSortKey c0 then c1 ++ "/" ++ c0
  else c0 ++ "/" ++ c1

/-- The authoritative branch of `infer_phenotype` (lines 173–179): the
CPIC diplotype-table lookup, `none` when the gene has no loaded tables,
the diplotype is not a key, or the stored phenotype label is falsy
(Python `if cpic_pheno:`). -/
def authoritative_phenotype (st : CpicState) (gene : String)
    (detected_alleles : List AlleleCall) : Option String :=
  if has_gene st gene then
    match infer_phenotype_from_diplotype st gene (build_diplotype gene detected_alleles) with
    | some p => if p ≠ "" then some p else none
    | none => none
  else none

/-- The per-allele activity scores of the heuristic branch of
`infer_phenotype` (lines 184–199). -/
def heuristic_scores (st : CpicState) (AF : String → String → Option String)
    (gene : String) (detected_alleles : List AlleleCall) : List ℚ :=
  detected_alleles.flatMap fun a =>
    let av : ℚ :=
      if has_gene st gene && a.star_allele ≠ "" then
        get_activity_value st gene a.star_allele
      else _function_score ((AF gene a.star_allele).getD "normal")
    if isHomAlt a.genotype then [av, av]
    else if isHetAlt a.genotype then [av]
    else []

/-- The `while len(scores) < 2: scores.append(1.0)` fill: missing
copies default to wild type. -/
def fill_wildtype (scores : List ℚ) : List ℚ :=
  scores ++ List.replicate (2 - scores.length) 1

/-- `scores.sort(); total = scores[0] + scores[1]`: the sum of the two
smallest scores (after the fill the list always has at least two
entries, so the take-2 sum is exactly `scores[0] + scores[1]`). -/
def sortedTake2Sum (l : List ℚ) : ℚ :=
  ((l.insertionSort (· ≤ ·)).take 2).sum

/-- The threshold classification chain of `infer_phenotype`
(lines 210–217; duplicated verbatim in
`compatibility.get_phenotype_for_diplotype`). -/
def classifyTotal (total : ℚ) : String :=
  if 5/2 ≤ total then ULTRA_RAPID
  else if 3/2 ≤ total then EXTENSIVE
  else if 1 ≤ total then INTERMEDIATE
  else POOR

/-- The activity-score heuristic of `infer_phenotype` (lines 181–217):
no scores → Normal Metabolizer; otherwise fill to two scores with 1.0
(wild-type copies), sort, and classify the sum of the two smallest. -/
def heuristic_phenotype (st : CpicState) (AF : String → String → Option String)
    (gene : String) (detected_alleles : List AlleleCall) : String :=
  let scores := heuristic_scores st AF gene detected_alleles
  if scores = [] then EXTENSIVE
  else classifyTotal (sortedTake2Sum (fill_wildtype scores))

/-- `pgx_knowledgebase.infer_phenotype`. -/
def infer_phenotype (st : CpicState) (AF : String → String → Option String)
    (gene : String) (detected_alleles : List AlleleCall) : String :=
  match authoritative_phenotype st gene detected_alleles with
  | some p => p
  | none => heuristic_phenotype st AF gene detected_alleles

/-! ### `pgx_knowledgebase.py` — drug–gene interaction database -/

/-- `pgx_knowledgebase.SAFE`. -/
def SAFE : String := "Safe"

/-- `ADJUST`. -/
def ADJUST : String := "Adjust Dosage"

/-- `TOXIC`. -/
def TOXIC : String := "Toxic"

/-- `INEFFECTIVE`. -/
def INEFFECTIVE : String := "Ineffective"

/-- `UNKNOWN`. -/
def UNKNOWN : String := "Unknown"

/-- `pgx_knowledgebase.DrugGeneInteraction`. -/
structure DrugGeneInteraction where
  drug : String
  gene : String
  phenotype : String
  risk : String
  recommendation : String
  mechanism : String
  cpic_level : String := ""
  guidelines_url : String := ""
deriving DecidableEq, Repr

/-- `pgx_knowledgebase._INTERACTIONS` — the master drug–gene interaction
table (CPIC-aligned), transcribed verbatim. -/
def _INTERACTIONS : List DrugGeneInteraction := [
  ⟨"codeine", "CYP2D6", ULTRA_RAPID, TOXIC,
    "AVOID codeine. Use alternative analgesic not metabolized by CYP2D6 (e.g., morphine, non-opioids).",
    "CYP2D6 ultra-rapid metabolizers convert codeine to morphine at extremely high rates, leading to potentially fatal respiratory depression.",
    "A", "https://cpicpgx.org/guidelines/guideline-for-codeine-and-cyp2d6/"⟩,
  ⟨"codeine", "CYP2D6", EXTENSIVE, SAFE,
    "Use codeine per standard dosing guidelines.",
    "Normal CYP2D6 activity produces expected morphine levels from codeine.",
    "A", ""⟩,
  ⟨"codeine", "CYP2D6", INTERMEDIATE, ADJUST,
    "Use codeine with caution at reduced dose, or consider alternative analgesic.",
    "Reduced CYP2D6 activity leads to lower morphine formation; analgesic effect may be diminished.",
    "A", ""⟩,
  ⟨"codeine", "CYP2D6", POOR, INEFFECTIVE,
    "AVOID codeine. Use alternative analgesic. Codeine will provide insufficient pain relief.",
    "CYP2D6 poor metabolizers cannot convert codeine to its active metabolite morphine, rendering it ineffective.",
    "A", ""⟩,
  ⟨"tramadol", "CYP2D6", ULTRA_RAPID, TOXIC,
    "AVOID tramadol. Risk of respiratory depression and seizures.",
    "Ultra-rapid CYP2D6 metabolism converts tramadol to O-desmethyltramadol at dangerously high rates.",
    "A", ""⟩,
  ⟨"tramadol", "CYP2D6", EXTENSIVE, SAFE,
    "Use tramadol per standard dosing.",
    "Normal CYP2D6 metabolism produces expected levels of active metabolite.",
    "A", ""⟩,
  ⟨"tramadol", "CYP2D6", INTERMEDIATE, ADJUST,
    "Use tramadol with caution; consider lower dose or alternative.",
    "Intermediate CYP2D6 activity may reduce active metabolite formation.",
    "A", ""⟩,
  ⟨"tramadol", "CYP2D6", POOR, INEFFECTIVE,
    "AVOID tramadol. Consider alternative analgesic.",
    "Poor CYP2D6 metabolism prevents formation of the active O-desmethyltramadol metabolite.",
    "A", ""⟩,
  ⟨"tamoxifen", "CYP2D6", ULTRA_RAPID, SAFE,
    "Use tamoxifen per standard dosing.",
    "Adequate endoxifen formation with ultra-rapid CYP2D6 metabolism.",
    "A", ""⟩,
  ⟨"tamoxifen", "CYP2D6", EXTENSIVE, SAFE,
    "Use tamoxifen per standard dosing (20 mg/day).",
    "Normal CYP2D6 converts tamoxifen to endoxifen at therapeutic levels.",
    "A", ""⟩,
  ⟨"tamoxifen", "CYP2D6", INTERMEDIATE, ADJUST,
    "Consider higher dose (40 mg/day) or alternative (aromatase inhibitor if post-menopausal).",
    "Reduced CYP2D6 activity decreases endoxifen formation, possibly lowering efficacy for breast cancer treatment.",
    "A", ""⟩,
  ⟨"tamoxifen", "CYP2D6", POOR, INEFFECTIVE,
    "AVOID tamoxifen. Use aromatase inhibitor (if post-menopausal) or alternative endocrine therapy.",
    "CYP2D6 poor metabolizers produce subtherapeutic endoxifen levels, compromising tamoxifen\x27s anti-cancer efficacy.",
    "A", ""⟩,
  ⟨"clopidogrel", "CYP2C19", ULTRA_RAPID, SAFE,
    "Use clopidogrel per standard dosing.",
    "Ultra-rapid CYP2C19 metabolism provides enhanced activation of clopidogrel to its active thiol metabolite.",
    "A", ""⟩,
  ⟨"clopidogrel", "CYP2C19", EXTENSIVE, SAFE,
    "Use clopidogrel per standard dosing (75 mg/day).",
    "Normal CYP2C19 function activates clopidogrel adequately for anti-platelet effect.",
    "A", ""⟩,
  ⟨"clopidogrel", "CYP2C19", INTERMEDIATE, ADJUST,
    "Consider alternative antiplatelet (prasugrel or ticagrelor) if undergoing PCI.",
    "Reduced CYP2C19 function decreases clopidogrel bioactivation, increasing risk of cardiovascular events.",
    "A", ""⟩,
  ⟨"clopidogrel", "CYP2C19", POOR, INEFFECTIVE,
    "Use ALTERNATIVE antiplatelet agent (prasugrel or ticagrelor). Clopidogrel will not provide adequate platelet inhibition.",
    "CYP2C19 poor metabolizers cannot bioactivate clopidogrel, leading to treatment failure and increased thrombotic risk.",
    "A", ""⟩,
  ⟨"omeprazole", "CYP2C19", ULTRA_RAPID, INEFFECTIVE,
    "Increase dose to 2-3× standard or use alternative PPI (rabeprazole).",
    "Ultra-rapid CYP2C19 metabolism clears omeprazole too quickly for adequate acid suppression.",
    "A", ""⟩,
  ⟨"omeprazole", "CYP2C19", EXTENSIVE, SAFE,
    "Use omeprazole per standard dosing (20 mg/day).",
    "Normal CYP2C19 activity provides expected omeprazole pharmacokinetics.",
    "A", ""⟩,
  ⟨"omeprazole", "CYP2C19", INTERMEDIATE, SAFE,
    "Use omeprazole per standard dosing. Slightly elevated drug levels are clinically beneficial.",
    "Intermediate CYP2C19 metabolism results in higher omeprazole exposure, which may improve acid suppression.",
    "A", ""⟩,
  ⟨"omeprazole", "CYP2C19", POOR, ADJUST,
    "Consider 50% dose reduction. Monitor for adverse effects.",
    "CYP2C19 poor metabolizers have markedly elevated omeprazole exposure (up to 10×), increasing risk of adverse effects.",
    "A", ""⟩,
  ⟨"escitalopram", "CYP2C19", ULTRA_RAPID, INEFFECTIVE,
    "Consider alternative SSRI not metabolized by CYP2C19 or increase dose with monitoring.",
    "Ultra-rapid CYP2C19 metabolism may result in subtherapeutic escitalopram levels.",
    "A", ""⟩,
  ⟨"escitalopram", "CYP2C19", EXTENSIVE, SAFE,
    "Use escitalopram per standard dosing (10-20 mg/day).",
    "Normal CYP2C19 metabolism provides expected escitalopram exposure.",
    "A", ""⟩,
  ⟨"escitalopram", "CYP2C19", INTERMEDIATE, SAFE,
    "Use escitalopram per standard dosing.",
    "Intermediate CYP2C19 metabolism has modest impact on escitalopram levels.",
    "A", ""⟩,
  ⟨"escitalopram", "CYP2C19", POOR, ADJUST,
    "Reduce dose by 50%. Consider alternative SSRI if adverse effects occur.",
    "CYP2C19 poor metabolizers have significantly elevated escitalopram plasma concentrations, increasing side-effect risk.",
    "A", ""⟩,
  ⟨"voriconazole", "CYP2C19", ULTRA_RAPID, INEFFECTIVE,
    "Use alternative antifungal agent or increase dose with therapeutic drug monitoring.",
    "Ultra-rapid CYP2C19 metabolism clears voriconazole too rapidly for adequate antifungal activity.",
    "A", ""⟩,
  ⟨"voriconazole", "CYP2C19", EXTENSIVE, SAFE,
    "Use voriconazole per standard dosing.",
    "Normal CYP2C19 function provides expected voriconazole pharmacokinetics.",
    "A", ""⟩,
  ⟨"voriconazole", "CYP2C19", INTERMEDIATE, SAFE,
    "Use voriconazole per standard dosing.",
    "Intermediate CYP2C19 metabolism has minimal clinical impact on voriconazole levels.",
    "A", ""⟩,
  ⟨"voriconazole", "CYP2C19", POOR, TOXIC,
    "Reduce dose by 50% or use alternative antifungal. Monitor trough levels closely.",
    "CYP2C19 poor metabolizers have dramatically elevated voriconazole exposure, risking hepatotoxicity and visual disturbances.",
    "A", ""⟩,
  ⟨"warfarin", "CYP2C9", EXTENSIVE, SAFE,
    "Use standard warfarin dosing algorithm with INR monitoring.",
    "Normal CYP2C9 metabolism clears S-warfarin at expected rates.",
    "A", "https://cpicpgx.org/guidelines/guideline-for-warfarin-and-cyp2c9-and-vkorc1/"⟩,
  ⟨"warfarin", "CYP2C9", INTERMEDIATE, ADJUST,
    "Reduce initial dose by 25-50%. Increase INR monitoring frequency.",
    "Reduced CYP2C9 function decreases S-warfarin clearance, increasing bleeding risk at standard doses.",
    "A", ""⟩,
  ⟨"warfarin", "CYP2C9", POOR, TOXIC,
    "Reduce initial dose by 50-80%. Use frequent INR monitoring. Consider alternative anticoagulant (DOAC).",
    "CYP2C9 poor metabolizers accumulate S-warfarin to dangerously high levels, causing severe bleeding risk.",
    "A", ""⟩,
  ⟨"celecoxib", "CYP2C9", EXTENSIVE, SAFE,
    "Use celecoxib per standard dosing.",
    "Normal CYP2C9 metabolism provides expected celecoxib clearance.",
    "A", ""⟩,
  ⟨"celecoxib", "CYP2C9", INTERMEDIATE, ADJUST,
    "Reduce starting dose by 50%. Use lowest effective dose.",
    "Intermediate CYP2C9 metabolism results in elevated celecoxib exposure.",
    "A", ""⟩,
  ⟨"celecoxib", "CYP2C9", POOR, TOXIC,
    "Reduce dose by 75% or avoid celecoxib. Use alternative NSAID or analgesic.",
    "CYP2C9 poor metabolizers have significantly impaired celecoxib clearance, increasing GI and cardiovascular toxicity risk.",
    "A", ""⟩,
  ⟨"phenytoin", "CYP2C9", EXTENSIVE, SAFE,
    "Use phenytoin per standard dosing with therapeutic drug monitoring.",
    "Normal CYP2C9 function provides expected phenytoin pharmacokinetics.",
    "A", ""⟩,
  ⟨"phenytoin", "CYP2C9", INTERMEDIATE, ADJUST,
    "Reduce dose by 25%. Monitor phenytoin levels closely.",
    "Reduced CYP2C9 activity leads to higher phenytoin levels and narrower therapeutic window.",
    "A", ""⟩,
  ⟨"phenytoin", "CYP2C9", POOR, TOXIC,
    "Reduce dose by 50% or use alternative antiepileptic. Monitor drug levels closely.",
    "CYP2C9 poor metabolizers accumulate phenytoin, risking CNS toxicity (ataxia, nystagmus, seizures).",
    "A", ""⟩,
  ⟨"simvastatin", "SLCO1B1", EXTENSIVE, SAFE,
    "Use simvastatin per standard dosing (up to 40 mg/day).",
    "Normal SLCO1B1 transporter function provides adequate hepatic uptake of simvastatin acid.",
    "A", "https://cpicpgx.org/guidelines/guideline-for-simvastatin-and-slco1b1/"⟩,
  ⟨"simvastatin", "SLCO1B1", INTERMEDIATE, ADJUST,
    "Limit simvastatin to ≤20 mg/day or use alternative statin (rosuvastatin/pravastatin).",
    "Reduced SLCO1B1 function increases systemic simvastatin acid exposure, raising myopathy risk (OR ~2.6 per *5 allele).",
    "A", ""⟩,
  ⟨"simvastatin", "SLCO1B1", POOR, TOXIC,
    "AVOID simvastatin. Use alternative statin (rosuvastatin or pravastatin at lowest effective dose).",
    "SLCO1B1 poor function causes dramatically elevated simvastatin acid levels, with ~18× increased myopathy risk including rhabdomyolysis.",
    "A", ""⟩,
  ⟨"atorvastatin", "SLCO1B1", EXTENSIVE, SAFE,
    "Use atorvastatin per standard dosing.",
    "Normal SLCO1B1 function provides expected hepatic uptake of atorvastatin.",
    "B", ""⟩,
  ⟨"atorvastatin", "SLCO1B1", INTERMEDIATE, ADJUST,
    "Use lower dose atorvastatin or consider pravastatin/rosuvastatin.",
    "Reduced SLCO1B1 function modestly increases atorvastatin systemic exposure.",
    "B", ""⟩,
  ⟨"atorvastatin", "SLCO1B1", POOR, ADJUST,
    "Use lowest effective dose or switch to pravastatin/rosuvastatin. Monitor for muscle symptoms.",
    "Poor SLCO1B1 function significantly increases atorvastatin exposure and myopathy risk.",
    "B", ""⟩,
  ⟨"azathioprine", "TPMT", EXTENSIVE, SAFE,
    "Use azathioprine per standard dosing (2-3 mg/kg/day).",
    "Normal TPMT activity provides expected thiopurine metabolism and safe thioguanine nucleotide (TGN) levels.",
    "A", "https://cpicpgx.org/guidelines/guideline-for-thiopurines-and-tpmt-and-nudt15/"⟩,
  ⟨"azathioprine", "TPMT", INTERMEDIATE, ADJUST,
    "Reduce dose to 30-70% of standard. Monitor CBC weekly for first months.",
    "Intermediate TPMT activity causes higher TGN accumulation, increasing myelosuppression risk.",
    "A", ""⟩,
  ⟨"azathioprine", "TPMT", POOR, TOXIC,
    "Reduce dose to 10% of standard or AVOID. Use alternative immunosuppressant. Mandatory CBC monitoring.",
    "TPMT-deficient patients accumulate lethal TGN concentrations, causing severe/fatal myelosuppression (pancytopenia).",
    "A", ""⟩,
  ⟨"mercaptopurine", "TPMT", EXTENSIVE, SAFE,
    "Use mercaptopurine per protocol dosing.",
    "Normal TPMT activity provides safe thiopurine metabolism.",
    "A", ""⟩,
  ⟨"mercaptopurine", "TPMT", INTERMEDIATE, ADJUST,
    "Reduce dose to 30-70% of standard. Monitor CBC closely.",
    "Intermediate TPMT activity increases TGN accumulation and myelosuppression risk.",
    "A", ""⟩,
  ⟨"mercaptopurine", "TPMT", POOR, TOXIC,
    "Reduce dose to 10% of standard or AVOID. Mandatory intensive CBC monitoring.",
    "TPMT deficiency causes dangerous TGN accumulation and life-threatening myelotoxicity.",
    "A", ""⟩,
  ⟨"fluorouracil", "DPYD", EXTENSIVE, SAFE,
    "Use 5-fluorouracil per standard dosing.",
    "Normal DPD enzyme activity provides expected fluorouracil catabolism.",
    "A", "https://cpicpgx.org/guidelines/guideline-for-fluoropyrimidines-and-dpyd/"⟩,
  ⟨"fluorouracil", "DPYD", INTERMEDIATE, ADJUST,
    "Reduce initial dose by 50%. Titrate based on toxicity and efficacy.",
    "Reduced DPD activity impairs fluorouracil catabolism, increasing exposure and toxicity risk (mucositis, myelosuppression).",
    "A", ""⟩,
  ⟨"fluorouracil", "DPYD", POOR, TOXIC,
    "AVOID fluorouracil and all fluoropyrimidines. Use alternative chemotherapy.",
    "DPD-deficient patients cannot catabolize fluorouracil, resulting in severe/fatal toxicity (mucositis, neutropenia, neurotoxicity).",
    "A", ""⟩,
  ⟨"capecitabine", "DPYD", EXTENSIVE, SAFE,
    "Use capecitabine per standard dosing.",
    "Normal DPD activity provides expected capecitabine/fluorouracil metabolism.",
    "A", ""⟩,
  ⟨"capecitabine", "DPYD", INTERMEDIATE, ADJUST,
    "Reduce initial dose by 50%. Monitor closely for toxicity.",
    "Reduced DPD activity impairs fluoropyrimidine catabolism, increasing toxicity risk.",
    "A", ""⟩,
  ⟨"capecitabine", "DPYD", POOR, TOXIC,
    "AVOID capecitabine. Use alternative chemotherapy regimen.",
    "DPD deficiency causes life-threatening fluoropyrimidine toxicity.",
    "A", ""⟩]

/-- `_INTERACTION_INDEX` lookup (`lookup_interaction`): the dict keyed by
`(drug.lower(), gene.upper(), phenotype)`; a later table entry for the
same key overwrites an earlier one, so the last match wins. -/
def lookup_interaction (drug gene phenotype : String) : Option DrugGeneInteraction :=
  (_INTERACTIONS.filter fun ix =>
    strToLower ix.drug = strToLower drug ∧ strToUpper ix.gene = strToUpper gene
      ∧ ix.phenotype = phenotype).getLast?

/-- `pgx_knowledgebase.KNOWN_GENES`: `sorted({ix.gene for ix in
_INTERACTIONS})`. -/
def KNOWN_GENES : List String :=
  ((_INTERACTIONS.map (·.gene)).dedup).insertionSort pyStrLe

/-- One `for _ix in _INTERACTIONS` iteration of the `DRUG_GENES` build:
`setdefault(drug.lower(), [])` then append the gene when absent. -/
def drugGenesStep (acc : List (String × List String)) (ix : DrugGeneInteraction) :
    List (String × List String) :=
  let d := strToLower ix.drug
  if acc.any (fun kv => kv.1 = d) then
    acc.map fun kv =>
      if kv.1 = d then
        (kv.1, if kv.2.contains ix.gene then kv.2 else kv.2 ++ [ix.gene])
      else kv
  else acc ++ [(d, [ix.gene])]

/-- `pgx_knowledgebase.DRUG_GENES`. -/
def DRUG_GENES : List (String × List String) :=
  _INTERACTIONS.foldl drugGenesStep []

/-- `pgx_knowledgebase.get_genes_for_drug`. -/
def get_genes_for_drug (drug : String) : List String :=
  pyDictGetD DRUG_GENES (strToLower drug) []

/-! ### `compatibility.py` — inheritance calculator

`ALLELE_FUNCTION` is again the explicit `AF` parameter.  Within
`calculate_inheritance` the per-parent gene map always projects a gene
object to its detected-alleles list (`g.get("detectedAlleles",
g.get("detected_alleles", []))`), so `extract_alleles` only ever sees
its list case (Case A) here. -/

/-- One variant dict of a parent profile as read by `extract_alleles`:
`v.get("isVariant", v.get("is_variant", False))`,
`v.get("starAllele", v.get("star_allele"))` (missing modelled as `""`,
which is equally falsy) and `v.get("genotype", "0/0")`. -/
structure ParentVariant where
  is_variant : Bool := false
  star_allele : String := ""
  genotype : String := "0/0"
deriving DecidableEq, Repr

/-- `compatibility.extract_alleles` (list case): skip non-variants and
empty star alleles, hom contributes two copies, het one; fill to two
with `*1`; keep the first two. -/
def extract_alleles (detected_alleles : List ParentVariant) : List String :=
  let alleles : List String := detected_alleles.flatMap fun v =>
    if v.is_variant = false then []
    else if v.star_allele = "" then []
    else if isHomAlt v.genotype then [v.star_allele, v.star_allele]
    else if isHetAlt v.genotype then [v.star_allele]
    else []
  (alleles ++ List.replicate (2 - alleles.length) "*1").take 2

/-- `compatibility.get_phenotype_for_diplotype`: the additive
activity-score classification of a fixed allele pair. -/
def get_phenotype_for_diplotype (AF : String → String → Option String)
    (gene allele1 allele2 : String) : String :=
  let score1 := _function_score ((AF gene allele1).getD "normal")
  let score2 := _function_score ((AF gene allele2).getD "normal")
  classifyTotal (score1 + score2)

/-- `tuple(sorted((a, b)))` on two strings (Python lexicographic
order). -/
def sortedPair (a b : String) : String × String :=
  if pyStrLtB b a then (b, a) else (a, b)

/-- One grouped outcome `(diplotype, phenotype, risk)`. -/
structure Outcome where
  diplotype : String
  phenotype : String
  risk : String
deriving DecidableEq, Repr

/-- One entry of `child_risks`. -/
structure ChildRisk where
  diplotype : String
  phenotype : String
  probability : ℚ
  risk : String
deriving DecidableEq, Repr

/-- `grouped[key] = grouped.get(key, 0) + 0.25` on the insertion-ordered
dict of outcome groups. -/
def addOutcome (acc : List (Outcome × ℚ)) (o : Outcome) : List (Outcome × ℚ) :=
  if acc.any (fun kv => kv.1 = o) then
    acc.map fun kv => if kv.1 = o then (kv.1, kv.2 + 1/4) else kv
  else acc ++ [(o, 1/4)]

/-- The descending-probability order `child_risks` is sorted by
(`key=lambda x: x["probability"], reverse=True`; Python's sort and
`insertionSort` are both stable). -/
def byProbDesc (a b : ChildRisk) : Prop :=
  b.probability ≤ a.probability

instance : DecidableRel byProbDesc := fun a b =>
  inferInstanceAs (Decidable (b.probability ≤ a.probability))

instance : IsTotal ChildRisk byProbDesc :=
  ⟨fun a b => le_total b.probability a.probability⟩

instance : IsTrans ChildRisk byProbDesc :=
  ⟨fun _ _ _ h1 h2 => le_trans h2 h1⟩

/-- The per-gene result record of `calculate_inheritance`. -/
structure GeneInheritance where
  parent1_diplotype : String
  parent2_diplotype : String
  child_risks : List ChildRisk
deriving DecidableEq, Repr

/-- The risk tier assigned to a phenotype in the outcome dicts. -/
def riskTier (phenotype : String) : String :=
  if phenotype = EXTENSIVE then "normal"
  else if phenotype = INTERMEDIATE then "caution"
  else if phenotype = POOR then "danger"
  else "warning"

/-- The body of the `for gene in KNOWN_GENES` loop of
`calculate_inheritance`: 2×2 Punnett expansion, grouping by
`(diplotype, phenotype, risk)` in 0.25 steps, stable sort by descending
probability. -/
def gene_inheritance (AF : String → String → Option String) (gene : String)
    (p1var p2var : List ParentVariant) : GeneInheritance :=
  let p1 := extract_alleles p1var
  let p2 := extract_alleles p2var
  let offspring : List (String × String) :=
    [sortedPair (p1.getD 0 "") (p2.getD 0 ""),
     sortedPair (p1.getD 0 "") (p2.getD 1 ""),
     sortedPair (p1.getD 1 "") (p2.getD 0 ""),
     sortedPair (p1.getD 1 "") (p2.getD 1 "")]
  let outcome_stats : List Outcome := offspring.map fun ab =>
    let phenotype := get_phenotype_for_diplotype AF gene ab.1 ab.2
    ⟨ab.1 ++ "/" ++ ab.2, phenotype, riskTier phenotype⟩
  let grouped := outcome_stats.foldl addOutcome []
  let child_risks : List ChildRisk := grouped.map fun op =>
    ⟨op.1.diplotype, op.1.phenotype, op.2, op.1.risk⟩
  { parent1_diplotype := p1.getD 0 "" ++ "/" ++ p1.getD 1 ""
    parent2_diplotype := p2.getD 0 "" ++ "/" ++ p2.getD 1 ""
    child_risks := child_risks.insertionSort byProbDesc }

/-- One gene object of a parent profile (`g.get("gene")` and the
detected-alleles list it is projected to). -/
structure ParentGeneRecord where
  gene : String
  detectedAlleles : List ParentVariant
deriving DecidableEq, Repr

/-- The `p1_map` dict comprehension followed by `p1_map.get(gene, [])`:
for duplicate gene keys the last record wins. -/
def parentGeneLookup (records : List ParentGeneRecord) (gene : String) :
    List ParentVariant :=
  match (records.filter fun g => g.gene = gene).getLast? with
  | some g => g.detectedAlleles
  | none => []

/-- `compatibility.calculate_inheritance`: one `GeneInheritance` per
known gene. -/
def calculate_inheritance (AF : String → String → Option String)
    (parent1_genes parent2_genes : List ParentGeneRecord) :
    List (String × GeneInheritance) :=
  KNOWN_GENES.map fun gene =>
    (gene, gene_inheritance AF gene
      (parentGeneLookup parent1_genes gene) (parentGeneLookup parent2_genes gene))

/-! ### `analyzer.py` — the drug-assessment loop of `analyze`

Step 3 of `analyze` (lines 486–555) is modelled as a function of the
per-gene context computed by steps 1–2 (the phenotype map over
`KNOWN_GENES` and the detected variants grouped by gene) and of the
requested drug list.  The optional LLM call
(`_generate_llm_explanation`) returns `None` without an API key and the
code then falls back to the deterministic template; the model takes that
fallback path. -/

/-- `analyzer.DetectedVariant`. -/
structure DetectedVariant where
  gene : String
  star_allele : String
  rsid : String
  chrom : String
  pos : Int
  ref : String
  alt : List String
  genotype : String
  is_variant : Bool
  function : String
deriving DecidableEq, Repr

/-- `analyzer.DrugResult`. -/
structure DrugResult where
  drug : String
  risk : String
  gene : String
  phenotype : String
  recommendation : String
  mechanism : String
  clinical_explanation : String
  cpic_level : String := ""
  guidelines_url : String := ""
  variants_cited : List DetectedVariant := []
  diplotype : String := ""
  llm_used : Bool := false
deriving DecidableEq, Repr

/-- The variant citation string of `_build_clinical_explanation`. -/
def variantCitation (v : DetectedVariant) : String :=
  v.gene ++ " " ++ v.star_allele ++ " (" ++ v.rsid ++ ", " ++ v.chrom ++ ":"
    ++ toString v.pos ++ " " ++ v.ref ++ ">" ++ String.intercalate "," v.alt
    ++ ", genotype " ++ v.genotype ++ ")"

/-- `analyzer._build_clinical_explanation`. -/
def build_clinical_explanation (drug : String) (interaction : DrugGeneInteraction)
    (phenotype : String) (variants : List DetectedVariant) : String :=
  let _ := drug
  let variant_citations := (variants.filter (·.is_variant)).map variantCitation
  let citations_text :=
    if variant_citations ≠ [] then
      "Detected variant(s): " ++ String.intercalate "; " variant_citations ++ ". "
    else ""
  citations_text ++ "The patient is classified as a " ++ phenotype ++ " for "
    ++ interaction.gene ++ ". " ++ interaction.mechanism
    ++ " Based on CPIC guidelines (evidence level " ++ interaction.cpic_level
    ++ "): " ++ interaction.recommendation

/-- The `DrugResult` emitted for a drug absent from the knowledge base
(lines 496–505). -/
def unknown_drug_result (drug_clean : String) : DrugResult :=
  { drug := drug_clean
    risk := UNKNOWN
    gene := ""
    phenotype := ""
    recommendation := "No pharmacogenomic data available for " ++ drug_clean
      ++ " in our knowledge base."
    mechanism := ""
    clinical_explanation := "The drug \x27" ++ drug_clean
      ++ "\x27 is not currently in our pharmacogenomic database. This does not mean it is safe — consult standard prescribing guidelines." }

/-- The per-relevant-gene result of the drug loop (lines 508–555). -/
def drug_gene_result (phenotype_map : String → Option String)
    (gene_variants : String → List DetectedVariant)
    (drug_clean gene : String) : DrugResult :=
  let phenotype := (phenotype_map gene).getD "Normal Metabolizer"
  let gene_vars := gene_variants gene
  let variant_alleles :=
    (gene_vars.filter fun v => v.is_variant && v.star_allele ≠ "").map (·.star_allele)
  let diplotype :=
    match variant_alleles with
    | [] => "*1/*1"
    | [a] => "*1/" ++ a
    | a :: b :: _ => a ++ "/" ++ b
  match lookup_interaction drug_clean gene phenotype with
  | some interaction =>
    { drug := drug_clean
      risk := interaction.risk
      gene := gene
      phenotype := phenotype
      recommendation := interaction.recommendation
      mechanism := interaction.mechanism
      clinical_explanation :=
        build_clinical_explanation drug_clean interaction phenotype gene_vars
      cpic_level := interaction.cpic_level
      guidelines_url := interaction.guidelines_url
      variants_cited := gene_vars.filter (·.is_variant)
      diplotype := diplotype
      llm_used := false }
  | none =>
    { drug := drug_clean
      risk := UNKNOWN
      gene := gene
      phenotype := phenotype
      recommendation := "No specific CPIC guideline found for " ++ drug_clean
        ++ " with " ++ phenotype ++ " " ++ gene ++ "."
      mechanism := ""
      clinical_explanation := "The patient is classified as a " ++ phenotype
        ++ " for " ++ gene
        ++ ", but no specific interaction data is available for " ++ drug_clean
        ++ " with this phenotype." }

/-- One `for drug in drugs` iteration of step 3 of `analyze`. -/
def process_drug (phenotype_map : String → Option String)
    (gene_variants : String → List DetectedVariant) (drug : String) :
    List DrugResult :=
  let drug_clean := strToLower (pyStrip drug)
  if drug_clean = "" then []
  else
    match get_genes_for_drug drug_clean with
    | [] => [unknown_drug_result drug_clean]
    | relevant_genes =>
      relevant_genes.map (drug_gene_result phenotype_map gene_variants drug_clean)

/-- The `drug_results` list built by step 3 of `analyze`. -/
def analyze_drug_results (phenotype_map : String → Option String)
    (gene_variants : String → List DetectedVariant) (drugs : List String) :
    List DrugResult :=
  drugs.flatMap (process_drug phenotype_map gene_variants)

/-! ### Spec-side definitions

Definitions written from the claims' own words, to be compared with the
code-side functions above. -/

/-- The claim's classification of a summed activity score:
`>= 2.5` Ultra-rapid, `>= 1.5` Normal, `>= 1.0` Intermediate, otherwise
Poor Metabolizer (claim C2's words). -/
def spec_classify (total : ℚ) : String :=
  if total ≥ 5/2 then "Ultra-rapid Metabolizer"
  else if total ≥ 3/2 then "Normal Metabolizer"
  else if total ≥ 1 then "Intermediate Metabolizer"
  else "Poor Metabolizer"

/-- The activity order of claim C7's functional classes:
`no_function < decreased < normal < increased` (other strings are
outside the order). -/
def activity_order (c : String) : Option ℕ :=
  if c = "no_function" then some 0
  else if c = "decreased" then some 1
  else if c = "normal" then some 2
  else if c = "increased" then some 3
  else none

/-- The phenotype rank of claim C7:
`Poor < Intermediate < Normal < UltraRapid`. -/
def phenotype_rank (p : String) : ℕ :=
  if p = POOR then 0
  else if p = INTERMEDIATE then 1
  else if p = EXTENSIVE then 2
  else if p = ULTRA_RAPID then 3
  else 0

/-! ### Concrete fixtures used by witnesses and counterexamples -/

/-- An empty merged `ALLELE_FUNCTION` map (a gene with no entries). -/
def emptyAF : String → String → Option String := fun _ _ => none

/-- A merged `ALLELE_FUNCTION` map holding only the hardcoded CYP2C19
entry for `*2` (`no_function`). -/
def af2C19 : String → String → Option String := fun gene star =>
  if gene = "CYP2C19" && star = "*2" then some "no_function" else none

/-- A diplotype-table row: `*1/*4` classified `CYP2D6 Poor Metabolizer`
(the CPIC table encodes a non-additive exception here, so the additive
heuristic would disagree). -/
def dpPoor14 : DiplotypePhenotype :=
  ⟨"*1/*4", some 0, "CYP2D6 Poor Metabolizer", "High Risk", "CYP2D6"⟩

/-- A loaded-table state holding CYP2D6 with the single diplotype row
`dpPoor14` and no activity values. -/
def cpicPoor14 : CpicState :=
  { loadedGenes := ["CYP2D6"]
    diplotypeTable := fun g d =>
      if g = "CYP2D6" && d = "*1/*4" then some dpPoor14 else none
    alleleActivity := fun _ _ => none }

/-- The loaded-table state with nothing loaded at all (`data/tables/`
absent). -/
def cpicEmpty : CpicState :=
  { loadedGenes := [], diplotypeTable := fun _ _ => none
    alleleActivity := fun _ _ => none }

/-- A VCF input whose first non-empty line declares no format/version
token (it goes straight to the column header). -/
def noHeaderInput : List String :=
  ["#CHROM\tPOS\tID\tREF\tALT\tQUAL\tFILTER\tINFO\tFORMAT\tPATIENT1",
   "chr22\t42130692\trs3892097\tG\tA\t.\tPASS\tGENE=CYP2D6;STAR=*4\tGT\t0/1"]

/-- A well-formed input around one malformed (5-column) data line. -/
def shortLineInput : List String :=
  ["##fileformat=VCFv4.2",
   "#CHROM\tPOS\tID\tREF\tALT\tQUAL\tFILTER\tINFO",
   "chr10\t94781859\trs4244285\tG\tA",
   "chr10\t94781859\trs4244285\tG\tA\t.\tPASS\tGENE=CYP2C19;STAR=*2"]

/-- `shortLineInput` with the malformed line removed. -/
def shortLineInputCut : List String :=
  ["##fileformat=VCFv4.2",
   "#CHROM\tPOS\tID\tREF\tALT\tQUAL\tFILTER\tINFO",
   "chr10\t94781859\trs4244285\tG\tA\t.\tPASS\tGENE=CYP2C19;STAR=*2"]

/-- `Except.isOk` for parse results (the run succeeded rather than
raising). -/
def parseOk (e : Except VCFParseError α) : Bool :=
  match e with
  | .ok _ => true
  | .error _ => false

/-! ## Theorems -/

/-! ### General helper lemmas -/

theorem fill_wildtype_two_le (l : List ℚ) : 2 ≤ (fill_wildtype l).length := by
  simp only [fill_wildtype, List.length_append, List.length_replicate]
  omega

theorem sortedTake2_subperm (l : List ℚ) :
    List.Subperm ((l.insertionSort (· ≤ ·)).take 2) l :=
  ((List.take_sublist 2 _).subperm).trans (List.perm_insertionSort _ l).subperm

theorem optionMapAll_none_of_mem {α β : Type} {f : α → Option β} {l : List α}
    {x : α} (hx : x ∈ l) (hf : f x = none) : optionMapAll f l = none := by
  induction l with
  | nil => cases hx
  | cons a t ih =>
    rcases List.mem_cons.mp hx with rfl | hx'
    · simp [optionMapAll, hf]
    · cases ha : f a <;> simp [optionMapAll, ha, ih hx']

/-! ### C8 — `is_variant` iff a positive parsed allele index -/

/-- C8: for every parsed per-sample genotype, `is_variant` is true iff
at least one parsed allele index is a positive integer; index 0
(reference) and missing markers (parsed as `-1`) are never counted, and
a failed parse (empty allele tuple) is never a variant. -/
theorem C8_is_variant_iff_positive_allele (fmt_keys : List String)
    (gt_str sample_name : String) (alt_alleles : List String) :
    (parseGenotype fmt_keys gt_str sample_name alt_alleles).is_variant = true ↔
    ∃ a ∈ (parseGenotype fmt_keys gt_str sample_name alt_alleles).alleles, 0 < a := by
  cases hp : parsedAllelesOf fmt_keys gt_str with
  | none => simp [parseGenotype, hp]
  | some l => simp [parseGenotype, hp, List.any_eq_true]

/-! ### C10 — totality of per-sample genotype parsing -/

/-- C10: `_parse_genotype` is total (the embedding returns a
`SampleGenotype` for every input), and whenever the genotype token is
the bare missing marker or contains a piece that is not parseable as an
integer index, `alleles` is empty and `is_variant` is false. -/
theorem C10_parse_genotype_failure_path (fmt_keys : List String)
    (gt_str sample_name : String) (alt_alleles : List String)
    (h : gtRawOf fmt_keys gt_str = "." ∨
      ∃ tok ∈ pySplitChar (gtRawOf fmt_keys gt_str) (gtSepOf (gtRawOf fmt_keys gt_str)),
        tok ≠ "." ∧ pythonInt tok = none) :
    (parseGenotype fmt_keys gt_str sample_name alt_alleles).alleles = [] ∧
    (parseGenotype fmt_keys gt_str sample_name alt_alleles).is_variant = false := by
  have hp : parsedAllelesOf fmt_keys gt_str = none := by
    unfold parsedAllelesOf
    rcases h with h | ⟨tok, htok, hne, hbad⟩
    · simp [h]
    · by_cases hdot : gtRawOf fmt_keys gt_str = "."
      · simp [hdot]
      · simp only [hdot, ne_eq, not_false_eq_true, if_true]
        unfold allelesOf
        exact optionMapAll_none_of_mem htok (by simp [hne, hbad])
  simp [parseGenotype, hp]

/-- C10 witness: the cell `abc` (an unparseable genotype token). -/
theorem C10_witness :
    (gtRawOf ["GT"] "abc" = "." ∨
      ∃ tok ∈ pySplitChar (gtRawOf ["GT"] "abc") (gtSepOf (gtRawOf ["GT"] "abc")),
        tok ≠ "." ∧ pythonInt tok = none) ∧
    (parseGenotype ["GT"] "abc" "PATIENT1" []).alleles = [] ∧
    (parseGenotype ["GT"] "abc" "PATIENT1" []).is_variant = false := by
  refine ⟨Or.inr ⟨"abc", by decide, by decide, by decide⟩, ?_⟩
  exact C10_parse_genotype_failure_path ["GT"] "abc" "PATIENT1" []
    (Or.inr ⟨"abc", by decide, by decide, by decide⟩)

/-! ### Parser-loop lemmas shared by C3 and C4 -/

theorem parseMetaLine_samples_variants (st : ParseState) (line : String) :
    (parseMetaLine st line).samples = st.samples ∧
    (parseMetaLine st line).variants = st.variants := by
  unfold parseMetaLine
  repeat first | exact ⟨rfl, rfl⟩ | split

theorem parseMetaLine_file_format (st : ParseState) (line : String)
    (h : strStartsWith line "##fileformat=" = false) :
    (parseMetaLine st line).metadata.file_format = st.metadata.file_format := by
  unfold parseMetaLine
  rw [if_neg (by simp [h])]
  repeat first | rfl | split

theorem parseVariantRow_error_iff (st : ParseState) (cols : List String) :
    parseOk (parseVariantRow st cols) = false ↔ pythonInt (cols.getD 1 "") = none := by
  unfold parseVariantRow
  cases pythonInt (cols.getD 1 "") <;> simp [parseOk]

theorem parseVariantRow_ok (st : ParseState) (cols : List String) (st' : ParseState)
    (h : parseVariantRow st cols = .ok st') :
    st'.samples = st.samples ∧ st'.metadata = st.metadata ∧
    st'.variants.length = st.variants.length + 1 := by
  unfold parseVariantRow at h
  cases hpi : pythonInt (cols.getD 1 "") <;> rw [hpi] at h
  · exact absurd h (by simp)
  · injection h with h'
    subst h'
    exact ⟨rfl, rfl, by simp⟩

theorem parseVariantRow_variants (st : ParseState) (cols : List String)
    (st' : ParseState) (h : parseVariantRow st cols = .ok st') :
    ∃ pos, pythonInt (cols.getD 1 "") = some pos ∧
      st'.variants = st.variants ++ [buildVariant st.samples cols pos] := by
  unfold parseVariantRow at h
  cases hpi : pythonInt (cols.getD 1 "") <;> rw [hpi] at h
  · exact absurd h (by simp)
  · injection h with h'
    subst h'
    exact ⟨_, rfl, rfl⟩

theorem parseVariantRow_congr (s₁ s₂ : ParseState) (cols : List String) :
    ∀ e, (parseVariantRow s₁ cols = .error e ↔ parseVariantRow s₂ cols = .error e) := by
  intro e
  unfold parseVariantRow
  cases pythonInt (cols.getD 1 "") <;> simp

/-- Success of the parse loop does not depend on the metadata
accumulated so far: it is determined by the lines, the sample list and
the variant count. -/
theorem parseLines_ok_congr (lines : List String) (mv : Nat) :
    ∀ s₁ s₂ : ParseState, s₁.samples = s₂.samples → s₁.variants = s₂.variants →
    parseOk (parseLines lines mv s₁) = parseOk (parseLines lines mv s₂) := by
  induction lines with
  | nil => intro s₁ s₂ _ _; rfl
  | cons raw rest ih =>
    intro s₁ s₂ hs hv
    rw [parseLines, parseLines]
    by_cases h1 : pyRstripNL raw = ""
    · rw [if_pos h1, if_pos h1]
      exact ih s₁ s₂ hs hv
    · rw [if_neg h1, if_neg h1]
      by_cases h2 : strStartsWith (pyRstripNL raw) "##" = true
      · rw [if_pos h2, if_pos h2]
        have p₁ := parseMetaLine_samples_variants s₁ (pyRstripNL raw)
        have p₂ := parseMetaLine_samples_variants s₂ (pyRstripNL raw)
        exact ih _ _ (by rw [p₁.1, p₂.1, hs]) (by rw [p₁.2, p₂.2, hv])
      · rw [if_neg h2, if_neg h2]
        by_cases h3 : (strStartsWith (pyRstripNL raw) "#CHROM"
            || strStartsWith (pyRstripNL raw) "#chrom") = true
        · rw [if_pos h3, if_pos h3]
          dsimp only
          by_cases h4 : (pySplitChar (⟨(pyRstripNL raw).data.dropWhile (· = '#')⟩ :
              String) '\t').length > 9
          · rw [if_pos h4, if_pos h4]
            exact ih _ _ rfl hv
          · rw [if_neg h4, if_neg h4]
            exact ih _ _ hs hv
        · rw [if_neg h3, if_neg h3]
          by_cases h5 : (pySplitChar (pyRstripNL raw) '\t').length < 8
          · rw [if_pos h5, if_pos h5]
            exact ih s₁ s₂ hs hv
          · rw [if_neg h5, if_neg h5]
            cases hr₁ : parseVariantRow s₁ (pySplitChar (pyRstripNL raw) '\t') with
            | error e =>
              have hr₂ : parseVariantRow s₂ (pySplitChar (pyRstripNL raw) '\t')
                  = .error e := (parseVariantRow_congr s₁ s₂ _ e).mp hr₁
              rw [hr₂]
            | ok st₁' =>
              cases hr₂ : parseVariantRow s₂ (pySplitChar (pyRstripNL raw) '\t') with
              | error e =>
                exact absurd hr₁ (by
                  intro hcon
                  have := (parseVariantRow_congr s₂ s₁ _ e).mp hr₂
                  rw [this] at hcon
                  cases hcon)
              | ok st₂' =>
                have q₁ := parseVariantRow_ok s₁ _ st₁' hr₁
                have q₂ := parseVariantRow_ok s₂ _ st₂' hr₂
                have hlen : st₁'.variants.length = st₂'.variants.length := by
                  rw [q₁.2.2, q₂.2.2, hv]
                simp only [hlen]
                by_cases h6 : (decide (mv ≠ 0) && decide (st₂'.variants.length ≥ mv)) = true
                · rw [if_pos h6, if_pos h6]
                  rfl
                · rw [if_neg h6, if_neg h6]
                  refine ih st₁' st₂' (by rw [q₁.1, q₂.1, hs]) ?_
                  obtain ⟨p₁, hp₁, e₁⟩ := parseVariantRow_variants s₁ _ st₁' hr₁
                  obtain ⟨p₂, hp₂, e₂⟩ := parseVariantRow_variants s₂ _ st₂' hr₂
                  rw [hp₁] at hp₂
                  injection hp₂ with hp
                  rw [e₁, e₂, hs, hv, hp]

theorem parseLines_file_format (lines : List String) (mv : Nat) :
    ∀ s s' : ParseState,
    (∀ l ∈ lines, strStartsWith (pyRstripNL l) "##fileformat=" = false) →
    parseLines lines mv s = .ok s' →
    s'.metadata.file_format = s.metadata.file_format := by
  induction lines with
  | nil =>
    intro s s' _ h
    injection h with h
    rw [← h]
  | cons raw rest ih =>
    intro s s' hff h
    rw [parseLines] at h
    by_cases h1 : pyRstripNL raw = ""
    · rw [if_pos h1] at h
      exact ih s s' (fun l hl => hff l (List.mem_cons_of_mem _ hl)) h
    · rw [if_neg h1] at h
      by_cases h2 : strStartsWith (pyRstripNL raw) "##" = true
      · rw [if_pos h2] at h
        have := ih _ s' (fun l hl => hff l (List.mem_cons_of_mem _ hl)) h
        rw [this]
        exact parseMetaLine_file_format s (pyRstripNL raw)
          (hff raw (List.mem_cons_self _ _))
      · rw [if_neg h2] at h
        by_cases h3 : (strStartsWith (pyRstripNL raw) "#CHROM"
            || strStartsWith (pyRstripNL raw) "#chrom") = true
        · rw [if_pos h3] at h
          dsimp only at h
          have := ih _ s' (fun l hl => hff l (List.mem_cons_of_mem _ hl)) h
          rw [this]
          split <;> rfl
        · rw [if_neg h3] at h
          by_cases h5 : (pySplitChar (pyRstripNL raw) '\t').length < 8
          · rw [if_pos h5] at h
            exact ih s s' (fun l hl => hff l (List.mem_cons_of_mem _ hl)) h
          · rw [if_neg h5] at h
            split at h
            · cases h
            · next st' heq =>
              have hmd := (parseVariantRow_ok s _ st' heq).2.1
              split at h
              · injection h with h
                rw [← h, hmd]
              · have := ih _ s' (fun l hl => hff l (List.mem_cons_of_mem _ hl)) h
                rw [this, hmd]

/-! ### C3 — the parser performs no format-header validation -/

/-- C3 (amended): `parse_vcf` never checks for a format/version token:
whether the parse succeeds is unchanged by prepending the declaration
line, and an input with no format declaration at all that parses
successfully yields a document whose `file_format` is empty — it is
never rejected for the missing header. -/
theorem C3_no_header_validation (lines : List String) (mv : Nat) :
    parseOk (parse_vcf_lines ("##fileformat=VCFv4.2" :: lines) mv)
      = parseOk (parse_vcf_lines lines mv) ∧
    (∀ d, (∀ l ∈ lines, strStartsWith (pyRstripNL l) "##fileformat=" = false) →
      parse_vcf_lines lines mv = .ok d → d.metadata.file_format = "") := by
  constructor
  · unfold parse_vcf_lines
    rw [parseLines]
    rw [if_neg (by decide), if_pos (by decide)]
    have h := parseLines_ok_congr lines mv
      (parseMetaLine {} (pyRstripNL "##fileformat=VCFv4.2")) {} rfl rfl
    cases he : parseLines lines mv ({} : ParseState) with
    | error e =>
      rw [he] at h
      cases he₂ : parseLines lines mv
          (parseMetaLine {} (pyRstripNL "##fileformat=VCFv4.2")) with
      | error e₂ => rfl
      | ok st => rw [he₂] at h; cases h
    | ok st =>
      rw [he] at h
      cases he₂ : parseLines lines mv
          (parseMetaLine {} (pyRstripNL "##fileformat=VCFv4.2")) with
      | error e₂ => rw [he₂] at h; cases h
      | ok st₂ => rfl
  · intro d hff h
    unfold parse_vcf_lines at h
    cases he : parseLines lines mv ({} : ParseState) with
    | error e => rw [he] at h; cases h
    | ok st =>
      rw [he] at h
      injection h with h
      have := parseLines_file_format lines mv {} st hff he
      rw [← h, this]

/-- C3 counterexample to the claim as stated: an input whose first
non-empty line declares no format/version token parses successfully and
returns a document — no fatal header error exists in the code. -/
theorem C3_counterexample :
    strStartsWith (noHeaderInput.getD 0 "") "##" = false ∧
    parseOk (parse_vcf_lines noHeaderInput 0) = true := by
  constructor
  · decide
  · rfl

/-- C3 witness for the amended claim, at the concrete header-less
input. -/
theorem C3_witness :
    parseOk (parse_vcf_lines ("##fileformat=VCFv4.2" :: noHeaderInput) 0)
      = parseOk (parse_vcf_lines noHeaderInput 0) ∧
    (∀ l ∈ noHeaderInput, strStartsWith (pyRstripNL l) "##fileformat=" = false) ∧
    ∀ d, parse_vcf_lines noHeaderInput 0 = .ok d → d.metadata.file_format = "" := by
  refine ⟨(C3_no_header_validation noHeaderInput 0).1, by decide, fun d hd => ?_⟩
  exact (C3_no_header_validation noHeaderInput 0).2 d (by decide) hd

/-! ### C4 — short data lines are dropped, but silently -/

theorem parseLines_skip_malformed (badRaw : String)
    (h1 : pyRstripNL badRaw ≠ "")
    (h2 : strStartsWith (pyRstripNL badRaw) "##" = false)
    (h3 : strStartsWith (pyRstripNL badRaw) "#CHROM" = false)
    (h4 : strStartsWith (pyRstripNL badRaw) "#chrom" = false)
    (h5 : (pySplitChar (pyRstripNL badRaw) '\t').length < 8) :
    ∀ (pre : List String) (post : List String) (mv : Nat) (s : ParseState),
    parseLines (pre ++ badRaw :: post) mv s = parseLines (pre ++ post) mv s := by
  intro pre
  induction pre with
  | nil =>
    intro post mv s
    simp only [List.nil_append]
    rw [parseLines]
    rw [if_neg h1, if_neg (by simp [h2]), if_neg (by simp [h3, h4]), if_pos h5]
  | cons raw rest ih =>
    intro post mv s
    simp only [List.cons_append]
    rw [parseLines, parseLines]
    by_cases c1 : pyRstripNL raw = ""
    · rw [if_pos c1, if_pos c1]
      exact ih post mv s
    · rw [if_neg c1, if_neg c1]
      by_cases c2 : strStartsWith (pyRstripNL raw) "##" = true
      · rw [if_pos c2, if_pos c2]
        exact ih post mv _
      · rw [if_neg c2, if_neg c2]
        by_cases c3 : (strStartsWith (pyRstripNL raw) "#CHROM"
            || strStartsWith (pyRstripNL raw) "#chrom") = true
        · rw [if_pos c3, if_pos c3]
          dsimp only
          exact ih post mv _
        · rw [if_neg c3, if_neg c3]
          by_cases c5 : (pySplitChar (pyRstripNL raw) '\t').length < 8
          · rw [if_pos c5, if_pos c5]
            exact ih post mv s
          · rw [if_neg c5, if_neg c5]
            cases hr : parseVariantRow s (pySplitChar (pyRstripNL raw) '\t') with
            | error e => rfl
            | ok st' =>
              dsimp only
              by_cases c6 : (decide (mv ≠ 0) && decide (st'.variants.length ≥ mv)) = true
              · rw [if_pos c6, if_pos c6]
              · rw [if_neg c6, if_neg c6]
                exact ih post mv st'

/-- C4 (amended): a data line with fewer than 8 tab-separated columns is
dropped without aborting the parse, but silently: the parse result is
*identical* to parsing the same input without that line — `parse_vcf`
keeps no warning list, so the drop is not observable to the caller. -/
theorem C4_short_line_dropped_silently (pre post : List String) (mv : Nat)
    (badRaw : String)
    (h1 : pyRstripNL badRaw ≠ "")
    (h2 : strStartsWith (pyRstripNL badRaw) "##" = false)
    (h3 : strStartsWith (pyRstripNL badRaw) "#CHROM" = false)
    (h4 : strStartsWith (pyRstripNL badRaw) "#chrom" = false)
    (h5 : (pySplitChar (pyRstripNL badRaw) '\t').length < 8) :
    parse_vcf_lines (pre ++ badRaw :: post) mv = parse_vcf_lines (pre ++ post) mv := by
  unfold parse_vcf_lines
  rw [parseLines_skip_malformed badRaw h1 h2 h3 h4 h5 pre post mv {}]

/-- C4 counterexample to the claim as stated: dropping the 5-column line
leaves the parse output bit-for-bit identical to parsing the input
without it, and the parse still succeeds — no warning is recorded
anywhere, so the drop is silent, not observable. -/
theorem C4_counterexample :
    parse_vcf_lines shortLineInput 0 = parse_vcf_lines shortLineInputCut 0 ∧
    parseOk (parse_vcf_lines shortLineInput 0) = true :=
  ⟨rfl, rfl⟩

/-- C4 witness for the amended claim, at the concrete malformed line. -/
theorem C4_witness :
    pyRstripNL "chr10\t94781859\trs4244285\tG\tA" ≠ "" ∧
    strStartsWith (pyRstripNL "chr10\t94781859\trs4244285\tG\tA") "##" = false ∧
    (pySplitChar (pyRstripNL "chr10\t94781859\trs4244285\tG\tA") '\t').length < 8 ∧
    parse_vcf_lines
      (["##fileformat=VCFv4.2", "#CHROM\tPOS\tID\tREF\tALT\tQUAL\tFILTER\tINFO"]
        ++ "chr10\t94781859\trs4244285\tG\tA"
          :: ["chr10\t94781859\trs4244285\tG\tA\t.\tPASS\tGENE=CYP2C19;STAR=*2"]) 0
      = parse_vcf_lines
        (["##fileformat=VCFv4.2", "#CHROM\tPOS\tID\tREF\tALT\tQUAL\tFILTER\tINFO"]
          ++ ["chr10\t94781859\trs4244285\tG\tA\t.\tPASS\tGENE=CYP2C19;STAR=*2"]) 0 := by
  refine ⟨by decide, by decide, by decide, ?_⟩
  exact C4_short_line_dropped_silently _ _ 0 _
    (by decide) (by decide) (by decide) (by decide) (by decide)

/-! ### C6 — diplotype lookup is order-independent -/

theorem splitChar_ne_nil (c : Char) (l : List Char) : splitChar c l ≠ [] := by
  cases l with
  | nil => simp [splitChar]
  | cons x xs =>
    unfold splitChar
    split
    · simp
    · split <;> simp

theorem splitChar_single {c : Char} {q : List Char} (h : c ∉ q) :
    splitChar c q = [q] := by
  induction q with
  | nil => rfl
  | cons x xs ih =>
    unfold splitChar
    rw [if_neg (by rintro rfl; exact h (List.mem_cons_self _ _))]
    rw [ih (fun hc => h (List.mem_cons_of_mem _ hc))]

theorem splitChar_append {c : Char} {as bs : List Char} (h : c ∉ as) :
    splitChar c (as ++ c :: bs) = as :: splitChar c bs := by
  induction as with
  | nil => simp [splitChar]
  | cons x xs ih =>
    rw [List.cons_append]
    simp only [splitChar]
    rw [if_neg (by rintro rfl; exact h (List.mem_cons_self _ _))]
    rw [ih (fun hc => h (List.mem_cons_of_mem _ hc))]

theorem first_occurrence_split {c : Char} {ys : List Char} (hcy : c ∈ ys) :
    ∃ as bs, ys = as ++ c :: bs ∧ c ∉ as := by
  induction ys with
  | nil => cases hcy
  | cons z zs ih =>
    by_cases hz : z = c
    · exact ⟨[], zs, by simp [hz], by simp⟩
    · rcases List.mem_cons.mp hcy with h | h
      · exact absurd h.symm hz
      · obtain ⟨as, bs, h1, h2⟩ := ih h
        refine ⟨z :: as, bs, by rw [h1]; rfl, ?_⟩
        simp only [List.mem_cons, not_or]
        exact ⟨fun hc => hz hc.symm, h2⟩

theorem splitChar_one {c : Char} {ys q : List Char} (h : splitChar c ys = [q]) :
    ys = q ∧ c ∉ q := by
  by_cases hcy : c ∈ ys
  · obtain ⟨as, bs, hys, has⟩ := first_occurrence_split hcy
    rw [hys, splitChar_append has] at h
    injection h with h1 h2
    exact absurd h2 (splitChar_ne_nil c bs)
  · rw [splitChar_single hcy] at h
    injection h with h1
    subst h1
    exact ⟨rfl, hcy⟩

theorem splitChar_pair_sound {c : Char} {l p q : List Char}
    (h : splitChar c l = [p, q]) : l = p ++ c :: q ∧ c ∉ p ∧ c ∉ q := by
  induction l generalizing p with
  | nil => simp [splitChar] at h
  | cons x xs ih =>
    unfold splitChar at h
    by_cases hx : x = c
    · rw [if_pos hx] at h
      injection h with h1 h2
      subst h1
      subst hx
      obtain ⟨hq1, hq2⟩ := splitChar_one h2
      exact ⟨by simp [hq1], by simp, hq2⟩
    · rw [if_neg hx] at h
      cases hs : splitChar c xs with
      | nil => exact absurd hs (splitChar_ne_nil c xs)
      | cons g gs =>
        rw [hs] at h
        injection h with h1 h2
        subst h1
        subst h2
        obtain ⟨hl, hp, hq⟩ := @ih g hs
        refine ⟨by rw [hl]; rfl, ?_, hq⟩
        simp only [List.mem_cons, not_or]
        exact ⟨fun hc => hx hc.symm, hp⟩

theorem slash_decomp_unique {c : Char} {as bs cs ds : List Char}
    (ha : c ∉ as) (hc : c ∉ cs) (h : as ++ c :: bs = cs ++ c :: ds) :
    as = cs ∧ bs = ds := by
  induction as generalizing cs with
  | nil =>
    cases cs with
    | nil => simpa using h
    | cons z zs =>
      rw [List.nil_append, List.cons_append] at h
      injection h with h1 h2
      exact absurd (h1 ▸ List.mem_cons_self c zs : c ∈ z :: zs) hc
  | cons x xs ih =>
    cases cs with
    | nil =>
      rw [List.nil_append, List.cons_append] at h
      injection h with h1 h2
      exact absurd (h1.symm ▸ List.mem_cons_self c xs : c ∈ x :: xs) ha
    | cons z zs =>
      rw [List.cons_append, List.cons_append] at h
      injection h with h1 h2
      obtain ⟨e1, e2⟩ := ih (fun hm => ha (List.mem_cons_of_mem _ hm))
        (fun hm => hc (List.mem_cons_of_mem _ hm)) h2
      exact ⟨by rw [h1, e1], e2⟩

theorem str_mk_data (a : String) : (⟨a.data⟩ : String) = a := by
  cases a
  rfl

theorem str_eq_iff_data {a b : String} : a = b ↔ a.data = b.data := by
  constructor
  · intro h; rw [h]
  · intro h
    cases a
    cases b
    exact congrArg String.mk h

theorem key_data (X Y : String) : (X ++ "/" ++ Y).data = X.data ++ '/' :: Y.data := by
  show (X.data ++ "/".data) ++ Y.data = X.data ++ '/' :: Y.data
  rw [List.append_assoc]
  rfl

theorem pySplitChar_key {X Y : String} (hX : '/' ∉ X.data) (hY : '/' ∉ Y.data) :
    pySplitChar (X ++ "/" ++ Y) '/' = [X, Y] := by
  unfold pySplitChar
  rw [key_data X Y, splitChar_append hX, splitChar_single hY]
  simp [str_mk_data]

theorem reverse_key_identifies {dip A B : String}
    (hA : '/' ∉ A.data) (_hB : '/' ∉ B.data)
    (hlen : (pySplitChar dip '/').length = 2)
    (hrev : (pySplitChar dip '/').getD 1 "" ++ "/" ++ (pySplitChar dip '/').getD 0 ""
      = A ++ "/" ++ B) :
    dip = B ++ "/" ++ A := by
  rcases hsc : splitChar '/' dip.data with _ | ⟨p0, _ | ⟨p1, _ | ⟨p2, t⟩⟩⟩ <;>
    rw [pySplitChar, hsc] at hlen hrev <;> try simp at hlen
  obtain ⟨hdip, hp0, hp1⟩ := splitChar_pair_sound hsc
  simp only [List.map_cons, List.map_nil, List.getD] at hrev
  have hrevd : p1 ++ '/' :: p0 = A.data ++ '/' :: B.data := by
    have := congrArg String.data hrev
    rw [key_data, key_data] at this
    simpa using this
  obtain ⟨e1, e0⟩ := slash_decomp_unique hp1 hA hrevd
  rw [str_eq_iff_data, hdip, key_data, e0, e1]

theorem diploLoadStep_untouched {gene : String}
    {d : String → Option DiplotypePhenotype} {r : DiploRow} {A B : String}
    (hA : '/' ∉ A.data) (hB : '/' ∉ B.data)
    (h1 : pyStrip r.diplotypeRaw ≠ A ++ "/" ++ B)
    (h2 : pyStrip r.diplotypeRaw ≠ B ++ "/" ++ A) :
    diploLoadStep gene d r (A ++ "/" ++ B) = d (A ++ "/" ++ B) := by
  unfold diploLoadStep
  dsimp only
  have hKdip : ¬ A ++ "/" ++ B = pyStrip r.diplotypeRaw := fun h => h1 h.symm
  by_cases hsplit : (pySplitChar (pyStrip r.diplotypeRaw) '/').length = 2
  · rw [if_pos hsplit]
    have hKrev : ¬ A ++ "/" ++ B =
        (pySplitChar (pyStrip r.diplotypeRaw) '/').getD 1 ""
          ++ "/" ++ (pySplitChar (pyStrip r.diplotypeRaw) '/').getD 0 "" := by
      intro he
      exact h2 (reverse_key_identifies hA hB hsplit he.symm)
    by_cases hrd : ((pySplitChar (pyStrip r.diplotypeRaw) '/').getD 1 "" ++ "/"
        ++ (pySplitChar (pyStrip r.diplotypeRaw) '/').getD 0 "") = pyStrip r.diplotypeRaw
    · rw [if_pos hrd, if_neg (Option.some_ne_none _)]
      exact if_neg hKdip
    · rw [if_neg hrd]
      by_cases hdr : d ((pySplitChar (pyStrip r.diplotypeRaw) '/').getD 1 "" ++ "/"
          ++ (pySplitChar (pyStrip r.diplotypeRaw) '/').getD 0 "") = none
      · rw [if_pos hdr]
        exact (if_neg hKrev).trans (if_neg hKdip)
      · rw [if_neg hdr]
        exact if_neg hKdip
  · rw [if_neg hsplit]
    exact if_neg hKdip

theorem metabolizer_phenotype_congr {dp1 dp2 : DiplotypePhenotype}
    (hp : dp1.phenotype = dp2.phenotype) (hg : dp1.gene = dp2.gene) :
    metabolizer_phenotype dp1 = metabolizer_phenotype dp2 := by
  unfold metabolizer_phenotype
  rw [hp, hg]

theorem diploLoadStep_relevant {gene : String}
    {d : String → Option DiplotypePhenotype} {r : DiploRow} {A B : String}
    (hA : '/' ∉ A.data) (hB : '/' ∉ B.data)
    (hdip : pyStrip r.diplotypeRaw = A ++ "/" ++ B)
    (hK2 : d (B ++ "/" ++ A) = none) :
    (diploLoadStep gene d r (A ++ "/" ++ B)).map metabolizer_phenotype
      = (diploLoadStep gene d r (B ++ "/" ++ A)).map metabolizer_phenotype := by
  unfold diploLoadStep
  rw [hdip]
  dsimp only
  rw [pySplitChar_key hA hB]
  have hlen : ([A, B] : List String).length = 2 := rfl
  rw [if_pos hlen]
  simp only [List.getD_cons_succ, List.getD_cons_zero]
  by_cases hswap : B ++ "/" ++ A = A ++ "/" ++ B
  · rw [if_pos hswap, if_neg (Option.some_ne_none _), hswap]
  · rw [if_neg hswap, hK2, if_pos rfl]
    have hns : ¬ A ++ "/" ++ B = B ++ "/" ++ A := fun h => hswap h.symm
    simp only [if_neg hns, if_pos rfl, Option.map_some]
    exact congrArg some (metabolizer_phenotype_congr rfl rfl)

theorem diploLoad_fold_preserve {gene A B : String}
    (hA : '/' ∉ A.data) (hB : '/' ∉ B.data) :
    ∀ (rows : List DiploRow) (d : String → Option DiplotypePhenotype),
    (∀ r ∈ rows, pyStrip r.diplotypeRaw ≠ A ++ "/" ++ B ∧
      pyStrip r.diplotypeRaw ≠ B ++ "/" ++ A) →
    (rows.foldl (diploLoadStep gene) d) (A ++ "/" ++ B) = d (A ++ "/" ++ B) := by
  intro rows
  induction rows with
  | nil => intro d _; rfl
  | cons r rest ih =>
    intro d h
    rw [List.foldl_cons]
    rw [ih _ (fun r' hr' => h r' (List.mem_cons_of_mem _ hr'))]
    exact diploLoadStep_untouched hA hB (h r (List.mem_cons_self _ _)).1
      (h r (List.mem_cons_self _ _)).2

theorem diploLoad_pair {gene A B : String}
    (hA : '/' ∉ A.data) (hB : '/' ∉ B.data) :
    ∀ (rows : List DiploRow) (d : String → Option DiplotypePhenotype),
    ((rows.filter fun r => decide (pyStrip r.diplotypeRaw = A ++ "/" ++ B ∨
        pyStrip r.diplotypeRaw = B ++ "/" ++ A)).length ≤ 1) →
    d (A ++ "/" ++ B) = none → d (B ++ "/" ++ A) = none →
    ((rows.foldl (diploLoadStep gene) d) (A ++ "/" ++ B)).map metabolizer_phenotype
      = ((rows.foldl (diploLoadStep gene) d) (B ++ "/" ++ A)).map metabolizer_phenotype := by
  intro rows
  induction rows with
  | nil =>
    intro d _ h1 h2
    show (d _).map _ = (d _).map _
    rw [h1, h2]
  | cons r rest ih =>
    intro d hcount h1 h2
    rw [List.filter_cons] at hcount
    by_cases hrel : pyStrip r.diplotypeRaw = A ++ "/" ++ B ∨
        pyStrip r.diplotypeRaw = B ++ "/" ++ A
    · rw [if_pos (by simpa using hrel)] at hcount
      simp only [List.length_cons, Nat.add_le_add_iff_right] at hcount
      have hrest : ∀ r' ∈ rest, pyStrip r'.diplotypeRaw ≠ A ++ "/" ++ B ∧
          pyStrip r'.diplotypeRaw ≠ B ++ "/" ++ A := by
        intro r' hr'
        have hz : (rest.filter fun r => decide (pyStrip r.diplotypeRaw = A ++ "/" ++ B ∨
            pyStrip r.diplotypeRaw = B ++ "/" ++ A)) = [] :=
          List.length_eq_zero.mp (by omega)
        have := List.filter_eq_nil_iff.mp hz r' hr'
        simp only [decide_eq_true_eq, not_or] at this
        exact this
      rw [List.foldl_cons]
      rw [diploLoad_fold_preserve hA hB rest _ hrest]
      rw [diploLoad_fold_preserve hB hA rest _ (fun r' hr' => ⟨(hrest r' hr').2, (hrest r' hr').1⟩)]
      rcases hrel with hd | hd
      · exact diploLoadStep_relevant hA hB hd h2
      · exact (diploLoadStep_relevant hB hA hd h1).symm
    · rw [if_neg (by simpa using hrel)] at hcount
      push_neg at hrel
      rw [List.foldl_cons]
      refine ih _ hcount ?_ ?_
      · rw [diploLoadStep_untouched hA hB hrel.1 hrel.2]
        exact h1
      · rw [diploLoadStep_untouched hB hA hrel.2 hrel.1]
        exact h2

/-- C6: diplotype-phenotype lookup is order-independent.  For slash-free
alleles `A`, `B`, provided the source rows list the unordered pair
`{A,B}` at most once (true of the CPIC sheets, which list each diplotype
once — a duplicate in the other order would be overwritten
asymmetrically), the loaded table gives `A/B` and `B/A` the identical
phenotype, because `_load_diplotype_phenotype` stores both orderings. -/
theorem C6_lookup_order_independent (gene : String) (rows : List DiploRow)
    (A B : String) (hA : '/' ∉ A.data) (hB : '/' ∉ B.data)
    (hcount : ((rows.filter fun r => decide (pyStrip r.diplotypeRaw = A ++ "/" ++ B ∨
        pyStrip r.diplotypeRaw = B ++ "/" ++ A)).length ≤ 1)) :
    (loadDiplotypePhenotype gene rows (A ++ "/" ++ B)).map metabolizer_phenotype
      = (loadDiplotypePhenotype gene rows (B ++ "/" ++ A)).map metabolizer_phenotype :=
  diploLoad_pair hA hB rows _ hcount rfl rfl

/-- C6 witness: a one-row CYP2C19 sheet (`*1/*17` → Rapid Metabolizer);
both lookup orders yield the same phenotype, namely `Rapid Metabolizer`
(prefix stripped). -/
theorem C6_witness :
    (([⟨"*1/*17", none, "CYP2C19 Rapid Metabolizer", ""⟩] : List DiploRow).filter
        (fun r => decide (pyStrip r.diplotypeRaw = "*1" ++ "/" ++ "*17" ∨
          pyStrip r.diplotypeRaw = "*17" ++ "/" ++ "*1"))).length ≤ 1 ∧
    (loadDiplotypePhenotype "CYP2C19"
        [⟨"*1/*17", none, "CYP2C19 Rapid Metabolizer", ""⟩]
        ("*1" ++ "/" ++ "*17")).map metabolizer_phenotype
      = (loadDiplotypePhenotype "CYP2C19"
        [⟨"*1/*17", none, "CYP2C19 Rapid Metabolizer", ""⟩]
        ("*17" ++ "/" ++ "*1")).map metabolizer_phenotype ∧
    (loadDiplotypePhenotype "CYP2C19"
        [⟨"*1/*17", none, "CYP2C19 Rapid Metabolizer", ""⟩]
        ("*17" ++ "/" ++ "*1")).map metabolizer_phenotype
      = some "Rapid Metabolizer" := by
  refine ⟨by decide, ?_, by decide⟩
  exact C6_lookup_order_independent "CYP2C19"
    [⟨"*1/*17", none, "CYP2C19 Rapid Metabolizer", ""⟩] "*1" "*17"
    (by decide) (by decide) (by decide)

/-! ### C1 — authoritative diplotype table takes precedence -/

/-- C1: for every loaded gene and detected-allele list whose canonical
diplotype is a key of the loaded diplotype-phenotype table,
`infer_phenotype` returns exactly the table's phenotype label with the
gene-name prefix stripped (provided that label is a non-empty string,
which every real phenotype label is — Python's `if cpic_pheno:` guard
would fall through on an empty one), never the heuristic's result. -/
theorem C1_authoritative_precedence (st : CpicState)
    (AF : String → String → Option String) (gene : String)
    (detected : List AlleleCall) (dp : DiplotypePhenotype)
    (hg : has_gene st gene = true)
    (hl : st.diplotypeTable (strToUpper gene) (build_diplotype gene detected) = some dp)
    (hne : metabolizer_phenotype dp ≠ "") :
    infer_phenotype st AF gene detected = metabolizer_phenotype dp := by
  simp [infer_phenotype, authoritative_phenotype, infer_phenotype_from_diplotype,
    hg, hl, hne]

/-- C1 witness: CYP2D6 `*4` het builds `*1/*4`; the table row says Poor
Metabolizer while the activity-score heuristic on the same input says
Normal Metabolizer; the table wins. -/
theorem C1_witness :
    has_gene cpicPoor14 "CYP2D6" = true ∧
    cpicPoor14.diplotypeTable (strToUpper "CYP2D6")
      (build_diplotype "CYP2D6" [⟨"*4", "0/1"⟩]) = some dpPoor14 ∧
    metabolizer_phenotype dpPoor14 ≠ "" ∧
    infer_phenotype cpicPoor14 emptyAF "CYP2D6" [⟨"*4", "0/1"⟩] = "Poor Metabolizer" ∧
    heuristic_phenotype cpicPoor14 emptyAF "CYP2D6" [⟨"*4", "0/1"⟩] = "Normal Metabolizer" := by
  refine ⟨by decide, by decide, by decide, ?_, ?_⟩
  · have h := C1_authoritative_precedence cpicPoor14 emptyAF "CYP2D6"
      [⟨"*4", "0/1"⟩] dpPoor14 (by decide) (by decide) (by decide)
    rw [h]
    decide
  · have hs : heuristic_scores cpicPoor14 emptyAF "CYP2D6" [⟨"*4", "0/1"⟩] = [1] := by
      simp [heuristic_scores, get_activity_value, isHomAlt, isHetAlt]
      decide
    rw [heuristic_phenotype, hs]
    norm_num [fill_wildtype, sortedTake2Sum, List.insertionSort, List.orderedInsert,
      classifyTotal, EXTENSIVE, ULTRA_RAPID]

/-! ### C2 — the activity-score heuristic sums exactly two scores -/

theorem heuristic_phenotype_eq (st : CpicState)
    (AF : String → String → Option String) (gene : String)
    (detected : List AlleleCall) :
    heuristic_phenotype st AF gene detected =
      if heuristic_scores st AF gene detected = [] then EXTENSIVE
      else classifyTotal (sortedTake2Sum
        (fill_wildtype (heuristic_scores st AF gene detected))) := rfl

theorem infer_of_auth_none {st : CpicState} {AF : String → String → Option String}
    {gene : String} {detected : List AlleleCall}
    (h : authoritative_phenotype st gene detected = none) :
    infer_phenotype st AF gene detected = heuristic_phenotype st AF gene detected := by
  rw [infer_phenotype, h]

/-- C2: whenever the heuristic path is taken, the result is the
claim's threshold classification (`spec_classify`) of the sum of exactly
two entries of the wild-type-filled score list (the code picks the two
smallest), and an empty detected-allele list (indeed any input with no
scores) yields Normal Metabolizer. -/
theorem C2_heuristic_classification (st : CpicState)
    (AF : String → String → Option String) (gene : String)
    (detected : List AlleleCall)
    (hauth : authoritative_phenotype st gene detected = none) :
    (detected = [] → infer_phenotype st AF gene detected = "Normal Metabolizer") ∧
    (heuristic_scores st AF gene detected = [] →
      infer_phenotype st AF gene detected = "Normal Metabolizer") ∧
    (heuristic_scores st AF gene detected ≠ [] →
      ∃ pair : List ℚ,
        List.Subperm pair (fill_wildtype (heuristic_scores st AF gene detected)) ∧
        pair.length = 2 ∧
        infer_phenotype st AF gene detected = spec_classify pair.sum) := by
  have hinf := @infer_of_auth_none st AF gene detected hauth
  refine ⟨?_, ?_, ?_⟩
  · intro hd
    subst hd
    rw [hinf, heuristic_phenotype]
    rfl
  · intro hs
    rw [hinf, heuristic_phenotype, if_pos hs]
    rfl
  · intro hs
    refine ⟨((fill_wildtype (heuristic_scores st AF gene detected)).insertionSort
        (· ≤ ·)).take 2, sortedTake2_subperm _, ?_, ?_⟩
    · rw [List.length_take, (List.perm_insertionSort _ _).length_eq]
      exact min_eq_left (fill_wildtype_two_le _)
    · rw [hinf, heuristic_phenotype, if_neg hs]
      rfl

/-- C2 witness: CYP2C19 `*2` het with no loaded tables: one score `0.0`
(no function), filled with a wild-type `1.0`. -/
theorem C2_witness :
    authoritative_phenotype cpicEmpty "CYP2C19" [⟨"*2", "0/1"⟩] = none ∧
    heuristic_scores cpicEmpty af2C19 "CYP2C19" [⟨"*2", "0/1"⟩] ≠ [] ∧
    (∃ pair : List ℚ,
      List.Subperm pair (fill_wildtype (heuristic_scores cpicEmpty af2C19 "CYP2C19" [⟨"*2", "0/1"⟩])) ∧
      pair.length = 2 ∧
      infer_phenotype cpicEmpty af2C19 "CYP2C19" [⟨"*2", "0/1"⟩] = spec_classify pair.sum) := by
  refine ⟨by decide, by decide, ?_⟩
  exact (C2_heuristic_classification cpicEmpty af2C19 "CYP2C19" [⟨"*2", "0/1"⟩]
    (by decide)).2.2 (by decide)

/-! ### C7 — the activity-score heuristic is monotonic

The key analytic fact: the sum of the two smallest entries of a list
(`scores.sort(); scores[0] + scores[1]`) is monotone under pointwise
decrease of the list. -/

theorem forall₂_sublist_left {α : Type} {R : α → α → Prop} :
    ∀ {l l' w : List α}, List.Forall₂ R l l' → w.Sublist l' →
    ∃ u, u.Sublist l ∧ List.Forall₂ R u w := by
  intro l l' w hf
  induction hf generalizing w with
  | nil =>
    intro hw
    rw [List.sublist_nil.mp hw]
    exact ⟨[], List.Sublist.refl _, List.Forall₂.nil⟩
  | @cons a b as bs hab hf ih =>
    intro hw
    cases hw with
    | cons _ h =>
      obtain ⟨u, h1, h2⟩ := ih h
      exact ⟨u, h1.cons _, h2⟩
    | cons₂ _ h =>
      obtain ⟨u, h1, h2⟩ := ih h
      exact ⟨a :: u, h1.cons₂ _, List.Forall₂.cons hab h2⟩

theorem forall₂_sum_le : ∀ {u w : List ℚ}, List.Forall₂ (· ≤ ·) u w →
    u.sum ≤ w.sum := by
  intro u w h
  induction h with
  | nil => exact le_refl 0
  | cons hab _ ih =>
    rw [List.sum_cons, List.sum_cons]
    exact add_le_add hab ih

theorem sorted_pair_le {a b x y : ℚ} {t : List ℚ}
    (hs : List.Sorted (· ≤ ·) (a :: b :: t))
    (hsub : List.Sublist [x, y] (a :: b :: t)) : a ≤ x ∧ b ≤ y := by
  have hy : y ∈ b :: t := by
    cases hsub with
    | cons _ h => exact h.subset (by simp)
    | cons₂ _ h => exact h.subset (by simp)
  have hx : x ∈ a :: b :: t := hsub.subset (by simp)
  constructor
  · rcases List.mem_cons.mp hx with rfl | hx'
    · exact le_refl x
    · exact List.rel_of_sorted_cons hs _ hx'
  · rcases List.mem_cons.mp hy with rfl | hy'
    · exact le_refl y
    · exact List.rel_of_sorted_cons hs.of_cons _ hy'

theorem sortedTake2Sum_le {l u : List ℚ} (hu : List.Subperm u l)
    (hlen : u.length = 2) (hl : 2 ≤ l.length) : sortedTake2Sum l ≤ u.sum := by
  obtain ⟨u', hperm, hsub⟩ := hu
  have hsp : List.Perm (l.insertionSort (· ≤ ·)) l := List.perm_insertionSort _ l
  have hsorted : List.Sorted (· ≤ ·) (l.insertionSort (· ≤ ·)) :=
    List.sorted_insertionSort _ l
  obtain ⟨u'', hperm2, hsub3⟩ := (hsub.subperm).trans hsp.symm.subperm
  have hlen'' : u''.length = 2 := by rw [hperm2.length_eq, hperm.length_eq, hlen]
  have hslen : 2 ≤ (l.insertionSort (· ≤ ·)).length := by
    rw [hsp.length_eq]
    exact hl
  obtain ⟨sa, sb, st, hseq⟩ : ∃ sa sb st,
      l.insertionSort (· ≤ ·) = sa :: sb :: st := by
    rcases hsl : l.insertionSort (· ≤ ·) with _ | ⟨sa, _ | ⟨sb, st⟩⟩ <;>
      rw [hsl] at hslen
    · simp at hslen
    · simp at hslen
    · exact ⟨sa, sb, st, rfl⟩
  obtain ⟨x, y, hu''⟩ : ∃ x y, u'' = [x, y] := by
    rcases u'' with _ | ⟨x, _ | ⟨y, _ | _⟩⟩ <;> simp at hlen''
    exact ⟨_, _, rfl⟩
  rw [hseq] at hsub3 hsorted
  rw [hu''] at hsub3 hperm2
  obtain ⟨h1, h2⟩ := sorted_pair_le hsorted hsub3
  have htv : sortedTake2Sum l = sa + sb := by
    rw [sortedTake2Sum, hseq]
    simp
  have husum : u.sum = x + y := by
    rw [← (hperm2.trans hperm).sum_eq]
    simp
  rw [htv, husum]
  exact add_le_add h1 h2

theorem sortedTake2Sum_mono {l l' : List ℚ}
    (hf : List.Forall₂ (· ≤ ·) l l') (hl : 2 ≤ l.length) :
    sortedTake2Sum l ≤ sortedTake2Sum l' := by
  have hlen := hf.length_eq
  have hl' : 2 ≤ l'.length := hlen ▸ hl
  obtain ⟨w', hwperm, hwsub⟩ := sortedTake2_subperm l'
  obtain ⟨u, husub, huf⟩ := forall₂_sublist_left hf hwsub
  have hw2 : ((l'.insertionSort (· ≤ ·)).take 2).length = 2 := by
    rw [List.length_take, (List.perm_insertionSort _ l').length_eq]
    exact min_eq_left hl'
  have hwlen : w'.length = 2 := by rw [hwperm.length_eq, hw2]
  have hulen : u.length = 2 := by rw [huf.length_eq, hwlen]
  calc sortedTake2Sum l ≤ u.sum := sortedTake2Sum_le husub.subperm hulen hl
    _ ≤ w'.sum := forall₂_sum_le huf
    _ = ((l'.insertionSort (· ≤ ·)).take 2).sum := hwperm.sum_eq
    _ = sortedTake2Sum l' := rfl

theorem function_score_mono {c c' : String} {i j : ℕ}
    (hi : activity_order c = some i) (hj : activity_order c' = some j)
    (hji : j ≤ i) : _function_score c' ≤ _function_score c := by
  unfold activity_order at hi hj
  split_ifs at hi hj <;> simp_all [_function_score] <;> first | omega | norm_num

theorem classifyTotal_rank_mono {t t' : ℚ} (h : t ≤ t') :
    phenotype_rank (classifyTotal t) ≤ phenotype_rank (classifyTotal t') := by
  unfold classifyTotal
  split_ifs <;>
    simp_all [phenotype_rank, POOR, INTERMEDIATE, EXTENSIVE, ULTRA_RAPID] <;>
    linarith

theorem heuristic_scores_forall₂ {st : CpicState}
    {f f' : String → String → Option String} {gene : String}
    (hng : has_gene st gene = false)
    (hpt : ∀ s, _function_score ((f' gene s).getD "normal")
      ≤ _function_score ((f gene s).getD "normal")) :
    ∀ detected, List.Forall₂ (· ≤ ·) (heuristic_scores st f' gene detected)
      (heuristic_scores st f gene detected) := by
  intro detected
  induction detected with
  | nil => exact List.Forall₂.nil
  | cons a t ih =>
    rw [heuristic_scores, List.flatMap_cons, heuristic_scores, List.flatMap_cons]
    refine List.rel_append ?_ ih
    simp only [hng, Bool.false_and, Bool.false_eq_true, if_false]
    by_cases hhom : isHomAlt a.genotype = true
    · simp only [hhom, if_true]
      exact List.Forall₂.cons (hpt a.star_allele)
        (List.Forall₂.cons (hpt a.star_allele) List.Forall₂.nil)
    · simp only [hhom, Bool.false_eq_true, if_false]
      by_cases hhet : isHetAlt a.genotype = true
      · simp only [hhet, if_true]
        exact List.Forall₂.cons (hpt a.star_allele) List.Forall₂.nil
      · simp only [hhet, Bool.false_eq_true, if_false]
        exact List.Forall₂.nil

/-- C7: on the heuristic path (gene without loaded tables), replacing
one star allele's functional class in the gene's function map by a
strictly less active class (no_function < decreased < normal <
increased) never raises the phenotype's rank
(Poor < Intermediate < Normal < UltraRapid). -/
theorem C7_heuristic_monotone (st : CpicState)
    (f f' : String → String → Option String) (gene : String)
    (detected : List AlleleCall) (s₀ c c' : String) (i j : ℕ)
    (hng : has_gene st gene = false)
    (hsame : ∀ s, s ≠ s₀ → f' gene s = f gene s)
    (hc : f gene s₀ = some c) (hc' : f' gene s₀ = some c')
    (hi : activity_order c = some i) (hj : activity_order c' = some j)
    (hji : j < i) :
    phenotype_rank (infer_phenotype st f' gene detected)
      ≤ phenotype_rank (infer_phenotype st f gene detected) := by
  have hauth : authoritative_phenotype st gene detected = none := by
    rw [authoritative_phenotype, if_neg (by simp [hng])]
  have hpt : ∀ s, _function_score ((f' gene s).getD "normal")
      ≤ _function_score ((f gene s).getD "normal") := by
    intro s
    by_cases hs : s = s₀
    · subst hs
      rw [hc, hc']
      exact function_score_mono hi hj (le_of_lt hji)
    · rw [hsame s hs]
  have hF := heuristic_scores_forall₂ hng hpt detected
  rw [infer_of_auth_none hauth, infer_of_auth_none hauth]
  by_cases hempty : heuristic_scores st f gene detected = []
  · have hempty' : heuristic_scores st f' gene detected = [] := by
      have := hF.length_eq
      rw [hempty] at this
      exact List.length_eq_zero.mp (by simpa using this)
    rw [heuristic_phenotype_eq, heuristic_phenotype_eq, if_pos hempty, if_pos hempty']
  · have hempty' : heuristic_scores st f' gene detected ≠ [] := by
      intro hcon
      have := hF.length_eq
      rw [hcon] at this
      exact hempty (List.length_eq_zero.mp (by simpa using this.symm))
    rw [heuristic_phenotype_eq, heuristic_phenotype_eq, if_neg hempty', if_neg hempty]
    apply classifyTotal_rank_mono
    apply sortedTake2Sum_mono
    · exact List.rel_append hF (by
        rw [hF.length_eq]
        exact List.forall₂_same.mpr fun x _ => le_refl x)
    · exact fill_wildtype_two_le _

/-- C7 witness: changing `*2` from normal to no_function on a gene with
no loaded tables never raises the rank. -/
theorem C7_witness :
    (activity_order "normal" = some 2 ∧ activity_order "no_function" = some 0) ∧
    phenotype_rank (infer_phenotype cpicEmpty
      (fun g s => if g = "CYP2C19" ∧ s = "*2" then some "no_function" else none)
      "CYP2C19" [⟨"*2", "0/1"⟩])
    ≤ phenotype_rank (infer_phenotype cpicEmpty
      (fun g s => if g = "CYP2C19" ∧ s = "*2" then some "normal" else none)
      "CYP2C19" [⟨"*2", "0/1"⟩]) := by
  refine ⟨⟨by decide, by decide⟩, ?_⟩
  exact C7_heuristic_monotone cpicEmpty
    (fun g s => if g = "CYP2C19" ∧ s = "*2" then some "normal" else none)
    (fun g s => if g = "CYP2C19" ∧ s = "*2" then some "no_function" else none)
    "CYP2C19" [⟨"*2", "0/1"⟩] "*2" "normal" "no_function" 2 0
    (by decide)
    (fun s hs => by simp [hs])
    (by simp) (by simp)
    (by decide) (by decide) (by omega)

/-! ### C5 — the Punnett outcome distribution of `calculate_inheritance` -/

/-- The keys (first components) of the grouped-outcome dict are unchanged
by an increment step of `addOutcome`. -/
theorem addOutcome_keys_update (acc : List (Outcome × ℚ)) (o : Outcome) :
    ((acc.map fun kv => if kv.1 = o then (kv.1, kv.2 + 1/4) else kv).map
        Prod.fst) = acc.map Prod.fst := by
  rw [List.map_map]
  apply List.map_congr_left
  intro kv _
  by_cases hk : kv.1 = o <;> simp [hk]

/-- Incrementing the (unique, by `Nodup`) entry of the grouped dict whose
key is `o` adds exactly `1/4` to the sum of the probabilities. -/
theorem update_sum (o : Outcome) (acc : List (Outcome × ℚ))
    (hnd : (acc.map Prod.fst).Nodup)
    (hany : acc.any (fun kv => kv.1 = o) = true) :
    ((acc.map fun kv => if kv.1 = o then (kv.1, kv.2 + 1/4) else kv).map
        Prod.snd).sum = (acc.map Prod.snd).sum + 1/4 := by
  induction acc with
  | nil => simp at hany
  | cons kv tl ih =>
    simp only [List.map_cons, List.sum_cons] at hnd ⊢
    by_cases hk : kv.1 = o
    · rw [if_pos hk]
      have hnotin := (List.nodup_cons.mp hnd).1
      have hid : (tl.map fun x => if x.1 = o then (x.1, x.2 + 1/4) else x)
          = tl := by
        refine (List.map_congr_left fun x hx => if_neg fun he => ?_).trans
          (List.map_id tl)
        exact hnotin (by rw [hk, ← he]; exact List.mem_map_of_mem Prod.fst hx)
      rw [hid]
      show kv.2 + 1/4 + (tl.map Prod.snd).sum = kv.2 + (tl.map Prod.snd).sum + 1/4
      ring
    · rw [if_neg hk]
      have hany' : tl.any (fun kv2 => kv2.1 = o) = true := by
        simp only [List.any_cons, Bool.or_eq_true] at hany
        rcases hany with h | h
        · exact absurd (of_decide_eq_true h) hk
        · exact h
      rw [ih (List.nodup_cons.mp hnd).2 hany']
      ring

/-- One `addOutcome` step preserves the grouping invariant: distinct
keys, sum `n/4` after `n` outcomes, at most `n` groups, every group a
positive multiple of `1/4`. -/
theorem addOutcome_inv (acc : List (Outcome × ℚ)) (o : Outcome) (n : ℕ)
    (hnd : (acc.map Prod.fst).Nodup)
    (hsum : (acc.map Prod.snd).sum = (n : ℚ)/4)
    (hlen : acc.length ≤ n)
    (hval : ∀ kv ∈ acc, ∃ k : ℕ, 1 ≤ k ∧ kv.2 = (k : ℚ)/4) :
    ((addOutcome acc o).map Prod.fst).Nodup ∧
      ((addOutcome acc o).map Prod.snd).sum = ((n + 1 : ℕ) : ℚ)/4 ∧
      (addOutcome acc o).length ≤ n + 1 ∧
      ∀ kv ∈ addOutcome acc o, ∃ k : ℕ, 1 ≤ k ∧ kv.2 = (k : ℚ)/4 := by
  by_cases hany : acc.any (fun kv => kv.1 = o) = true
  · rw [addOutcome, if_pos hany]
    refine ⟨?_, ?_, ?_, ?_⟩
    · rw [addOutcome_keys_update]; exact hnd
    · rw [update_sum o acc hnd hany, hsum]
      push_cast
      ring
    · rw [List.length_map]; omega
    · intro kv hkv
      obtain ⟨x, hx, he⟩ := List.mem_map.mp hkv
      obtain ⟨k, hk, hke⟩ := hval x hx
      by_cases hxo : x.1 = o
      · rw [if_pos hxo] at he
        refine ⟨k + 1, by omega, ?_⟩
        rw [← he, hke]
        push_cast
        ring
      · rw [if_neg hxo] at he
        exact ⟨k, hk, he ▸ hke⟩
  · rw [addOutcome, if_neg hany]
    have hnotin : o ∉ acc.map Prod.fst := by
      intro hmem
      obtain ⟨x, hx, he⟩ := List.mem_map.mp hmem
      exact hany (List.any_eq_true.mpr ⟨x, hx, decide_eq_true he⟩)
    refine ⟨?_, ?_, ?_, ?_⟩
    · rw [List.map_append]
      exact List.Nodup.append hnd (List.nodup_singleton o)
        (by simpa [List.disjoint_singleton] using hnotin)
    · rw [List.map_append, List.sum_append, hsum]
      simp only [List.map_cons, List.map_nil, List.sum_cons, List.sum_nil]
      push_cast
      ring
    · rw [List.length_append]
      simpa using hlen
    · intro kv hkv
      rcases List.mem_append.mp hkv with h | h
      · exact hval kv h
      · rw [List.mem_singleton.mp h]
        exact ⟨1, le_refl 1, by norm_num⟩

/-- Folding `addOutcome` keeps the full grouping invariant. -/
theorem foldl_addOutcome_inv (os : List Outcome) :
    ∀ (acc : List (Outcome × ℚ)) (n : ℕ),
      (acc.map Prod.fst).Nodup →
      (acc.map Prod.snd).sum = (n : ℚ)/4 →
      acc.length ≤ n →
      (∀ kv ∈ acc, ∃ k : ℕ, 1 ≤ k ∧ kv.2 = (k : ℚ)/4) →
      ((os.foldl addOutcome acc).map Prod.snd).sum
          = ((n + os.length : ℕ) : ℚ)/4 ∧
        (os.foldl addOutcome acc).length ≤ n + os.length ∧
        ∀ kv ∈ os.foldl addOutcome acc, ∃ k : ℕ, 1 ≤ k ∧ kv.2 = (k : ℚ)/4 := by
  induction os with
  | nil =>
    intro acc n hnd hsum hlen hval
    simp only [List.foldl_nil, List.length_nil, Nat.add_zero]
    exact ⟨hsum, hlen, hval⟩
  | cons o os ih =>
    intro acc n hnd hsum hlen hval
    obtain ⟨hnd', hsum', hlen', hval'⟩ := addOutcome_inv acc o n hnd hsum hlen hval
    have h := ih (addOutcome acc o) (n + 1) hnd' hsum' hlen' hval'
    rw [List.foldl_cons]
    refine ⟨?_, ?_, h.2.2⟩
    · rw [h.1]
      congr 1
      push_cast
      rw [List.length_cons]
      push_cast
      ring
    · rw [List.length_cons]
      omega

/-- The grouped-outcome dict built from the empty accumulator: sum
`length/4`, at most `length` groups, positive multiples of `1/4`. -/
theorem grouped_props (os : List Outcome) :
    (((os.foldl addOutcome []).map Prod.snd).sum = (os.length : ℚ)/4) ∧
      (os.foldl addOutcome []).length ≤ os.length ∧
      ∀ kv ∈ os.foldl addOutcome [], ∃ k : ℕ, 1 ≤ k ∧ kv.2 = (k : ℚ)/4 := by
  have h := foldl_addOutcome_inv os [] 0 (by simp) (by simp) (by simp)
    (by simp)
  simpa using h

/-- The `child_risks` list built from a list of raw outcomes: group with
`addOutcome`, convert to records, sort by descending probability.
Definitionally equal to the corresponding part of `gene_inheritance`. -/
def childRisksOf (os : List Outcome) : List ChildRisk :=
  ((os.foldl addOutcome []).map fun op =>
    (⟨op.1.diplotype, op.1.phenotype, op.2, op.1.risk⟩ : ChildRisk)).insertionSort
      byProbDesc

/-- `childRisksOf` carries the grouping invariant over to the sorted
record list, and is sorted by descending probability. -/
theorem childRisksOf_props (os : List Outcome) :
    ((childRisksOf os).map ChildRisk.probability).sum = (os.length : ℚ)/4 ∧
      (childRisksOf os).length ≤ os.length ∧
      (∀ r ∈ childRisksOf os, ∃ k : ℕ, 1 ≤ k ∧ r.probability = (k : ℚ)/4) ∧
      (childRisksOf os).Sorted byProbDesc := by
  obtain ⟨hsum, hlen, hval⟩ := grouped_props os
  have hperm : List.Perm (childRisksOf os)
      ((os.foldl addOutcome []).map fun op =>
        (⟨op.1.diplotype, op.1.phenotype, op.2, op.1.risk⟩ : ChildRisk)) :=
    List.perm_insertionSort byProbDesc _
  refine ⟨?_, ?_, ?_, List.sorted_insertionSort byProbDesc _⟩
  · rw [(hperm.map ChildRisk.probability).sum_eq, List.map_map]
    exact hsum
  · rw [hperm.length_eq, List.length_map]
    exact hlen
  · intro r hr
    obtain ⟨op, hop, he⟩ := List.mem_map.mp (hperm.mem_iff.mp hr)
    obtain ⟨k, hk, hke⟩ := hval op hop
    exact ⟨k, hk, by rw [← he]; exact hke⟩

/-- `gene_inheritance` always produces a `child_risks` list whose
probabilities sum to 1, with at most 4 groups, each a positive multiple
of `1/4`, sorted by descending probability. -/
theorem gene_inheritance_spec (AF : String → String → Option String)
    (gene : String) (p1var p2var : List ParentVariant) :
    ((gene_inheritance AF gene p1var p2var).child_risks.map
        ChildRisk.probability).sum = 1 ∧
      (gene_inheritance AF gene p1var p2var).child_risks.length ≤ 4 ∧
      (∀ r ∈ (gene_inheritance AF gene p1var p2var).child_risks,
        ∃ k : ℕ, 1 ≤ k ∧ r.probability = (k : ℚ)/4) ∧
      (gene_inheritance AF gene p1var p2var).child_risks.Sorted byProbDesc := by
  obtain ⟨os, hcr, hlen4⟩ : ∃ os : List Outcome,
      (gene_inheritance AF gene p1var p2var).child_risks = childRisksOf os ∧
        os.length = 4 := ⟨_, rfl, rfl⟩
  obtain ⟨hsum, hlen, hval, hsorted⟩ := childRisksOf_props os
  rw [hcr]
  refine ⟨?_, ?_, hval, hsorted⟩
  · rw [hsum, hlen4]
    norm_num
  · rw [← hlen4]
    exact hlen

/-- C5: for every pair of parent profiles and every gene record produced
by `calculate_inheritance`, the outcome groups sum to probability 1,
there are at most 4 of them, each probability is a positive multiple of
`1/4`, and they are listed in descending probability order. -/
theorem C5_inheritance_distribution (AF : String → String → Option String)
    (parent1_genes parent2_genes : List ParentGeneRecord)
    (gene : String) (gi : GeneInheritance)
    (hmem : (gene, gi) ∈ calculate_inheritance AF parent1_genes parent2_genes) :
    (gi.child_risks.map ChildRisk.probability).sum = 1 ∧
      gi.child_risks.length ≤ 4 ∧
      (∀ r ∈ gi.child_risks, ∃ k : ℕ, 1 ≤ k ∧ r.probability = (k : ℚ)/4) ∧
      gi.child_risks.Sorted byProbDesc := by
  obtain ⟨g, hg, he⟩ := List.mem_map.mp hmem
  obtain ⟨h1, h2⟩ := Prod.mk.injEq .. |>.mp he
  rw [← h2]
  exact gene_inheritance_spec AF g _ _

/-- C5 witness: the `CYP2C19` record of `calculate_inheritance` for two
empty parent profiles satisfies the distribution properties. -/
theorem C5_witness :
    (("CYP2C19", gene_inheritance (fun _ _ => none) "CYP2C19" [] []) ∈
        calculate_inheritance (fun _ _ => none) [] []) ∧
      ((((gene_inheritance (fun _ _ => none) "CYP2C19" [] []).child_risks.map
          ChildRisk.probability).sum = 1) ∧
        (gene_inheritance (fun _ _ => none) "CYP2C19" [] []).child_risks.length
            ≤ 4 ∧
        (∀ r ∈ (gene_inheritance (fun _ _ => none) "CYP2C19" [] []).child_risks,
          ∃ k : ℕ, 1 ≤ k ∧ r.probability = (k : ℚ)/4) ∧
        (gene_inheritance (fun _ _ => none) "CYP2C19" [] []).child_risks.Sorted
          byProbDesc) := by
  have hmem : ("CYP2C19", gene_inheritance (fun _ _ => none) "CYP2C19" [] []) ∈
      calculate_inheritance (fun _ _ => none) [] [] :=
    List.mem_map.mpr ⟨"CYP2C19", by decide, rfl⟩
  exact ⟨hmem, C5_inheritance_distribution (fun _ _ => none) [] [] "CYP2C19" _ hmem⟩


/-! ### C9 — drugs absent from the knowledge base -/

/-- Both branches of `drug_gene_result` record the cleaned drug name in
the `drug` field. -/
theorem drug_gene_result_drug (phenotype_map : String → Option String)
    (gene_variants : String → List DetectedVariant)
    (drug_clean gene : String) :
    (drug_gene_result phenotype_map gene_variants drug_clean gene).drug
      = drug_clean := by
  simp only [drug_gene_result]
  split <;> rfl

/-- Every result emitted by one drug iteration carries that drug's
cleaned name. -/
theorem process_drug_drug (phenotype_map : String → Option String)
    (gene_variants : String → List DetectedVariant) (drug : String)
    (r : DrugResult) (hr : r ∈ process_drug phenotype_map gene_variants drug) :
    r.drug = strToLower (pyStrip drug) := by
  rw [process_drug] at hr
  by_cases hz : strToLower (pyStrip drug) = ""
  · rw [if_pos hz] at hr
    cases hr
  · rw [if_neg hz] at hr
    rcases hg : get_genes_for_drug (strToLower (pyStrip drug)) with _ | ⟨g, gs⟩ <;>
      rw [hg] at hr
    · rw [List.mem_singleton.mp hr]
      rfl
    · obtain ⟨gene, _, he⟩ := List.mem_map.mp hr
      rw [← he]
      exact drug_gene_result_drug _ _ _ _

/-- A drug iteration whose cleaned name is `c`, with `c` non-blank and
mapped to no gene, contributes exactly the unknown-drug result among the
results whose `drug` field is `c`. -/
theorem process_drug_filter_self (phenotype_map : String → Option String)
    (gene_variants : String → List DetectedVariant) (drug c : String)
    (hd : strToLower (pyStrip drug) = c) (hne : c ≠ "")
    (hng : get_genes_for_drug c = []) :
    (process_drug phenotype_map gene_variants drug).filter
        (fun r => r.drug = c) = [unknown_drug_result c] := by
  rw [process_drug, hd, if_neg hne, hng]
  have : (unknown_drug_result c).drug = c := rfl
  simp [this]

/-- A drug iteration whose cleaned name differs from `c` contributes no
result whose `drug` field is `c`. -/
theorem process_drug_filter_other (phenotype_map : String → Option String)
    (gene_variants : String → List DetectedVariant) (drug c : String)
    (hd : strToLower (pyStrip drug) ≠ c) :
    (process_drug phenotype_map gene_variants drug).filter
        (fun r => r.drug = c) = [] := by
  rw [List.filter_eq_nil_iff]
  intro r hr
  simp only [decide_eq_true_eq]
  rw [process_drug_drug _ _ _ r hr]
  exact hd

/-- A block of drug iterations none of which cleans to `c` contributes no
result whose `drug` field is `c`. -/
theorem analyze_filter_none (phenotype_map : String → Option String)
    (gene_variants : String → List DetectedVariant) (drugs : List String)
    (c : String) (h : ∀ d ∈ drugs, strToLower (pyStrip d) ≠ c) :
    (analyze_drug_results phenotype_map gene_variants drugs).filter
        (fun r => r.drug = c) = [] := by
  rw [List.filter_eq_nil_iff]
  intro r hr
  obtain ⟨d, hd, hrd⟩ := List.mem_flatMap.mp hr
  simp only [decide_eq_true_eq]
  rw [process_drug_drug _ _ _ r hrd]
  exact h d hd

/-- C9: a non-blank requested drug that maps to no gene in the knowledge
base (and is requested once, up to cleaning) yields exactly one
`DrugResult` carrying it, the unknown-drug record: risk `Unknown` and a
non-empty advisory recommendation and clinical explanation; the loop is
total, so no exception is raised. -/
theorem C9_unknown_drug (phenotype_map : String → Option String)
    (gene_variants : String → List DetectedVariant) (drugs : List String)
    (c : String) (hne : c ≠ "") (hng : get_genes_for_drug c = [])
    (hcount : (drugs.map fun d => strToLower (pyStrip d)).count c = 1) :
    (analyze_drug_results phenotype_map gene_variants drugs).filter
        (fun r => r.drug = c) = [unknown_drug_result c] ∧
      (unknown_drug_result c).risk = "Unknown" ∧
      (unknown_drug_result c).recommendation ≠ "" ∧
      (unknown_drug_result c).clinical_explanation ≠ "" := by
  refine ⟨?_, rfl, ?_, ?_⟩
  · induction drugs with
    | nil => simp at hcount
    | cons d ds ih =>
      have hsplit : (analyze_drug_results phenotype_map gene_variants
          (d :: ds)).filter (fun r => r.drug = c)
          = (process_drug phenotype_map gene_variants d).filter
              (fun r => r.drug = c)
            ++ (analyze_drug_results phenotype_map gene_variants ds).filter
              (fun r => r.drug = c) := by
        rw [analyze_drug_results, List.flatMap_cons, List.filter_append]
        rfl
      rw [List.map_cons, List.count_cons] at hcount
      by_cases hd : strToLower (pyStrip d) = c
      · have hrest : (ds.map fun d => strToLower (pyStrip d)).count c = 0 := by
          simp only [hd] at hcount
          simpa using hcount
        have hnone : ∀ d2 ∈ ds, strToLower (pyStrip d2) ≠ c := by
          intro d2 hd2 he
          have : c ∈ ds.map fun d => strToLower (pyStrip d) :=
            List.mem_map.mpr ⟨d2, hd2, he⟩
          rw [← List.count_pos_iff, hrest] at this
          exact absurd this (by omega)
        rw [hsplit, process_drug_filter_self _ _ _ _ hd hne hng,
          analyze_filter_none _ _ _ _ hnone, List.append_nil]
      · have hrest : (ds.map fun d => strToLower (pyStrip d)).count c = 1 := by
          simpa [hd] using hcount
        rw [hsplit, process_drug_filter_other _ _ _ _ hd, ih hrest,
          List.nil_append]
  · intro h
    simp only [unknown_drug_result] at h
    have hl := congrArg String.length h
    rw [String.length_append] at hl
    have h1 : ("No pharmacogenomic data available for " : String).length
        = 38 := rfl
    have h2 : ("" : String).length = 0 := rfl
    rw [String.length_append, h1, h2] at hl
    omega
  · intro h
    simp only [unknown_drug_result] at h
    have hl := congrArg String.length h
    rw [String.length_append] at hl
    have h1 : ("The drug \x27" : String).length = 10 := rfl
    have h2 : ("" : String).length = 0 := rfl
    rw [String.length_append, h1, h2] at hl
    omega

set_option maxRecDepth 100000 in
/-- C9 witness: requesting the single unknown drug `aspirin` yields
exactly the unknown-drug result, with risk `Unknown` and non-empty
advisory texts. -/
theorem C9_witness :
    (("aspirin" : String) ≠ "" ∧ get_genes_for_drug "aspirin" = [] ∧
        ((["aspirin"].map fun d => strToLower (pyStrip d)).count "aspirin"
          = 1)) ∧
      ((analyze_drug_results (fun _ => none) (fun _ => []) ["aspirin"]).filter
          (fun r => r.drug = "aspirin") = [unknown_drug_result "aspirin"] ∧
        (unknown_drug_result "aspirin").risk = "Unknown" ∧
        (unknown_drug_result "aspirin").recommendation ≠ "" ∧
        (unknown_drug_result "aspirin").clinical_explanation ≠ "") :=
  ⟨⟨by decide, by decide, by decide⟩,
    C9_unknown_drug (fun _ => none) (fun _ => []) ["aspirin"] "aspirin"
      (by decide) (by decide) (by decide)⟩


end Pharmaguard
